import Mathlib

/-!
Shallow embedding of libcatner (src/libcatner.c, src/libcatner.h): a BMEcat
catalog maintained as one XML tree, plus a `catner_state_s` handle holding a
last-error slot and cursor pointers into the tree.

Modelling conventions:
* libxml2 nodes become the inductive `XNode`; element nodes carry a tag name
  and an ordered child list, text nodes carry a string.  `xmlNodeGetContent`
  becomes `XNode.content` (concatenation of all text in the subtree), and a
  text node's libxml name is the fixed string "text", so name comparisons
  against BMEcat tag names never match text nodes, exactly as in C.
* C pointers into the live tree become paths (`List Nat` of child indices)
  from the document root; pointer equality becomes path equality.  This is
  faithful for every state considered here, where all stored pointers
  reference nodes of the current tree.
* `int`/`size_t` results become `Int`/`Nat`; NULL-able `const char *`
  arguments become `Option String`.
* `snprintf(order, 8, "%zu", n)` is modelled as exact decimal rendering
  (`toString n`); the 8-byte buffer of the C code only truncates beyond
  9999999 features, which is outside the numeric range modelled here.
-/

inductive XNode : Type where
  | text (s : String)
  | elem (name : String) (children : List XNode)
  deriving Inhabited, Repr

mutual

def XNode.decEq : (a b : XNode) → Decidable (a = b)
  | .text s, .text t =>
      if h : s = t then .isTrue (by rw [h]) else .isFalse (fun hh => by cases hh; exact h rfl)
  | .text _, .elem _ _ => .isFalse (fun h => by cases h)
  | .elem _ _, .text _ => .isFalse (fun h => by cases h)
  | .elem n cs, .elem m ds =>
      if h : n = m then
        match XNode.decEqList cs ds with
        | .isTrue hl => .isTrue (by rw [h, hl])
        | .isFalse hl => .isFalse (fun hh => by injection hh with h1 h2; exact hl h2)
      else .isFalse (fun hh => by injection hh with h1 h2; exact h h1)

def XNode.decEqList : (a b : List XNode) → Decidable (a = b)
  | [], [] => .isTrue rfl
  | [], _ :: _ => .isFalse (fun h => by cases h)
  | _ :: _, [] => .isFalse (fun h => by cases h)
  | c :: cs, d :: ds =>
      match XNode.decEq c d, XNode.decEqList cs ds with
      | .isTrue h1, .isTrue h2 => .isTrue (by rw [h1, h2])
      | .isFalse h1, _ => .isFalse (fun hh => by injection hh with ha hb; exact h1 ha)
      | _, .isFalse h2 => .isFalse (fun hh => by injection hh with ha hb; exact h2 hb)

end

instance : DecidableEq XNode := XNode.decEq

abbrev XPath := List Nat

namespace XNode

/-- libxml node name: element tag, or the fixed name "text" for text nodes. -/
def name : XNode → String
  | .text _ => "text"
  | .elem n _ => n

def children : XNode → List XNode
  | .text _ => []
  | .elem _ cs => cs

/-- `xmlNodeGetContent`: concatenation of all text content in the subtree. -/
def content : XNode → String
  | .text s => s
  | .elem _ cs => go cs
where go : List XNode → String
  | [] => ""
  | c :: cs => content c ++ go cs

/-- Apply a function to the child list of an element node. -/
def mapChildren (f : List XNode → List XNode) : XNode → XNode
  | .text s => .text s
  | .elem n cs => .elem n (f cs)

end XNode

/-- Replace the `i`-th element of a list by `f` applied to it (no-op when out
of bounds), mirroring in-place mutation through a child pointer. -/
def modifyIdx (f : XNode → XNode) : List XNode → Nat → List XNode
  | [], _ => []
  | c :: cs, 0 => f c :: cs
  | c :: cs, i + 1 => c :: modifyIdx f cs i

/-- Remove the `i`-th element of a list (no-op when out of bounds),
mirroring `xmlUnlinkNode` + `xmlFreeNode` of a child. -/
def removeIdx : List XNode → Nat → List XNode
  | [], _ => []
  | _ :: cs, 0 => cs
  | c :: cs, i + 1 => c :: removeIdx cs i

namespace XNode

def withChild (n : XNode) (i : Nat) (f : XNode → XNode) : XNode :=
  n.mapChildren (modifyIdx f · i)

def pushChild (n : XNode) (c : XNode) : XNode :=
  n.mapChildren (· ++ [c])

/-- Node addressed by a path of child indices, if the path is valid. -/
def get? : XNode → XPath → Option XNode
  | n, [] => some n
  | n, i :: p => (n.children[i]?).bind (get? · p)

/-- Apply `f` to the node addressed by a path (identity when invalid). -/
def modify : XNode → XPath → (XNode → XNode) → XNode
  | n, [], f => f n
  | n, i :: p, f => n.withChild i (modify · p f)

/-- Detach the node addressed by a (non-empty) path from the tree. -/
def removeAt : XNode → XPath → XNode
  | n, [] => n
  | n, [i] => n.mapChildren (removeIdx · i)
  | n, i :: p => n.withChild i (removeAt · p)

end XNode

/-! ### Tree primitives from `libcatner.c` -/

/-- `libcatner_cmp_content`: exact string match of a node's text content. -/
def libcatner_cmp_content (node : XNode) (value : String) : Bool :=
  node.content == value

/-- Match rule of `libcatner_get_child`'s search loop: name must match and,
when a value is given, the text content must match too. -/
def matchNV (name : String) (value : Option String) (c : XNode) : Bool :=
  c.name == name && (match value with
    | none => true
    | some v => libcatner_cmp_content c v)

/-- First list element satisfying `p`, together with its index. -/
def findWithIdx (p : XNode → Bool) : List XNode → Option (Nat × XNode)
  | [] => none
  | c :: cs => if p c then some (0, c) else (findWithIdx p cs).map (fun r => (r.1 + 1, r.2))

/-- Search part of `libcatner_get_child` (the `add = 0` case): first child of
`parent` matching `name` and, if given, content `value`. -/
def libcatner_find_child (parent : XNode) (name : String) (value : Option String) :
    Option (Nat × XNode) :=
  findWithIdx (matchNV name value) parent.children

/-- `libcatner_add_child`: an empty element when no value is given, an
element holding one text node otherwise. -/
def libcatner_add_child (name : String) (value : Option String) : XNode :=
  match value with
  | none => .elem name []
  | some v => .elem name [.text v]

/-- `libcatner_get_child` with `add = 1`: find the matching child or append a
new one; returns the child's index and the updated parent. -/
def libcatner_get_child_add (parent : XNode) (name : String) (value : Option String) :
    Nat × XNode :=
  match libcatner_find_child parent name value with
  | some r => (r.1, parent)
  | none => (parent.children.length, parent.pushChild (libcatner_add_child name value))

/-- `xmlNodeSetContent`: replace a node's children by a single text node. -/
def xmlNodeSetContent (n : XNode) (v : String) : XNode :=
  match n with
  | .text _ => .text v
  | .elem nm _ => .elem nm [.text v]

/-- `libcatner_set_child`: set the content of the first child named `name`,
creating it (as a text child) when absent and `add` is set. -/
def libcatner_set_child (parent : XNode) (name : String) (value : String) (add : Bool) :
    Int × XNode :=
  match libcatner_find_child parent name none with
  | none =>
      if add then (0, parent.pushChild (libcatner_add_child name (some value)))
      else (-1, parent)
  | some r => (0, parent.withChild r.1 (xmlNodeSetContent · value))

/-- `libcatner_num_children`: count children matching name and optional value. -/
def libcatner_num_children (parent : XNode) (name : String) (value : Option String) : Nat :=
  parent.children.countP (fun c => matchNV name value c)

/-- Least index `j ≥ start` of a sibling named `name` in `cs`, computed by
scanning the suffix starting at `start`. -/
def findNameFrom (cs : List XNode) (name : String) (start : Nat) : Option Nat :=
  go (cs.drop start) start
where go : List XNode → Nat → Option Nat
  | [], _ => none
  | c :: rest, j => if c.name == name then some j else go rest (j + 1)

/-- `libcatner_next_node` on paths: path of the first following sibling that
shares the addressed node's name. -/
def nextPath : XNode → XPath → Option XPath
  | _, [] => none
  | n, [i] =>
      match n.children[i]? with
      | none => none
      | some c => (findNameFrom n.children c.name (i + 1)).map (fun j => [j])
  | n, i :: p =>
      match n.children[i]? with
      | none => none
      | some c => (nextPath c p).map (fun q => i :: q)

/-! ### Error codes from `libcatner.h` -/

def LIBCATNER_ERR_NONE : Int := 0
def LIBCATNER_ERR_OTHER : Int := -1
def LIBCATNER_ERR_ALREADY_EXISTS : Int := -3
def LIBCATNER_ERR_INVALID_VALUE : Int := -4
def LIBCATNER_ERR_NO_SUCH_AID : Int := -10
def LIBCATNER_ERR_NO_SUCH_FID : Int := -11
def LIBCATNER_ERR_NO_SUCH_VID : Int := -12
def LIBCATNER_ERR_NO_SUCH_NODE : Int := -13
def LIBCATNER_ERR_NO_SEL_ARTICLE : Int := -20
def LIBCATNER_ERR_NO_SEL_FEATURE : Int := -21
def LIBCATNER_ERR_NO_SEL_VARIANT : Int := -22
def LIBCATNER_ERR_NO_SEL_IMAGE : Int := -23
def LIBCATNER_ERR_NO_SEL_UNIT : Int := -24

def LIBCATNER_DEF_UNIT_CODE : String := "PCE"
def LIBCATNER_DEF_UNIT_FACTOR : String := "1"
def LIBCATNER_DEF_FEATURE_UNIT : String := "00"

/-! ### The handle (`catner_state_s`)

The C struct stores the document and pointers `header`, `catalog`,
`articles`, `generator` plus the five cursor pointers.  `catner_init`
creates the anchors in a fixed shape — root children `[HEADER,
T_NEW_CATALOG]`, header child `[CATALOG]` — and no public operation ever
detaches or reorders these anchors, so their paths are the constants below
for the whole lifetime of a handle.  `generator` and the cursors are genuine
state and are kept as optional paths. -/

def headerPath : XPath := [0]
def catalogPath : XPath := [0, 0]
def articlesPath : XPath := [1]

structure CatnerState where
  error : Int
  doc : XNode
  generator : Option XPath
  currArticle : Option XPath
  currFeature : Option XPath
  currVariant : Option XPath
  currImage : Option XPath
  currUnit : Option XPath
  deriving DecidableEq, Repr

/-- `catner_init`: fresh document with the four structural anchors; the
zero-initialised struct leaves `generator` and all cursors NULL. -/
def catner_init : CatnerState :=
  { error := LIBCATNER_ERR_NONE
    doc := .elem "BMECAT" [.elem "HEADER" [.elem "CATALOG" []], .elem "T_NEW_CATALOG" []]
    generator := none
    currArticle := none
    currFeature := none
    currVariant := none
    currImage := none
    currUnit := none }

/-- The `T_NEW_CATALOG` node the handle's `articles` pointer references. -/
def CatnerState.articlesNode (s : CatnerState) : XNode :=
  (s.doc.get? articlesPath).getD (.elem "T_NEW_CATALOG" [])

/-- `libcatner_get_article`: scan the children of `T_NEW_CATALOG` for the
first one holding a `SUPPLIER_AID` child with content `aid`. -/
def libcatner_get_article (articles : XNode) (aid : String) : Option (Nat × XNode) :=
  findWithIdx (fun a => (libcatner_find_child a "SUPPLIER_AID" (some aid)).isSome)
    articles.children

/-- The `article = aid ? libcatner_get_article(...) : cs->_curr_article`
pattern shared by all per-article operations: resolves to the article's path
and node. -/
def CatnerState.resolveArticle (s : CatnerState) (aid : Option String) :
    Option (XPath × XNode) :=
  match aid with
  | some a =>
      (libcatner_get_article s.articlesNode a).map
        (fun r => (articlesPath ++ [r.1], r.2))
  | none => s.currArticle.bind (fun p => (s.doc.get? p).map (fun n => (p, n)))

/-- `libcatner_get_feature`: inside the first `ARTICLE_FEATURES` child, the
first `FEATURE` child holding a `FID` child with content `fid`; returns the
container's index, the feature's index and the feature node. -/
def libcatner_get_feature (article : XNode) (fid : String) :
    Option (Nat × Nat × XNode) :=
  match libcatner_find_child article "ARTICLE_FEATURES" none with
  | none => none
  | some (fi, features) =>
      (findWithIdx
        (fun c => c.name == "FEATURE" && (libcatner_find_child c "FID" (some fid)).isSome)
        features.children).map (fun r => (fi, r.1, r.2))

/-- `libcatner_num_features`: number of `FEATURE` children of the first
`ARTICLE_FEATURES` child, 0 when the container is absent. -/
def libcatner_num_features (article : XNode) : Nat :=
  match libcatner_find_child article "ARTICLE_FEATURES" none with
  | none => 0
  | some (_, features) => libcatner_num_children features "FEATURE" none

/-- `libcatner_num_variants`: number of `VARIANT` children of the first
`VARIANTS` child, 0 when the container is absent. -/
def libcatner_num_variants (feature : XNode) : Nat :=
  match libcatner_find_child feature "VARIANTS" none with
  | none => 0
  | some (_, variants) => libcatner_num_children variants "VARIANT" none

/-- Body of `libcatner_fix_feature_order`'s loop: walk the `FEATURE` chain
(`libcatner_get_child` + `libcatner_next_node` visit exactly the `FEATURE`
children in sibling order) and store the running 1-based counter into each
one's `FORDER` child via `libcatner_set_child(..., add = 1)`. -/
def fixOrderList : List XNode → Nat → List XNode
  | [], _ => []
  | c :: cs, i =>
      if c.name == "FEATURE" then
        (libcatner_set_child c "FORDER" (toString i) true).2 :: fixOrderList cs (i + 1)
      else
        c :: fixOrderList cs i

/-- `libcatner_fix_feature_order`: renumber the `FORDER` fields of all
`FEATURE` children of the article's first `ARTICLE_FEATURES` child to their
1-based rank; nothing happens when the article has no such container. -/
def libcatner_fix_feature_order (article : XNode) : XNode :=
  match libcatner_find_child article "ARTICLE_FEATURES" none with
  | none => article
  | some (fi, _) => article.withChild fi (XNode.mapChildren (fixOrderList · 1))

/-! ### Public API: ADD -/

/-- `catner_add_generator`: refuse when the handle's `generator` pointer is
set, otherwise append a `GENERATOR_INFO` child to `HEADER`.  Note the C code
does not update `cs->generator` after the append. -/
def catner_add_generator (s : CatnerState) (value : String) : Int × CatnerState :=
  match s.generator with
  | some _ => (-1, { s with error := LIBCATNER_ERR_ALREADY_EXISTS })
  | none =>
      (0, { s with doc := (s.doc.modify headerPath
              (·.pushChild (libcatner_add_child "GENERATOR_INFO" (some value)))) })

/-- `catner_set_generator`: create the node (and set the pointer) when
`cs->generator` is NULL, otherwise overwrite its content. -/
def catner_set_generator (s : CatnerState) (value : String) : Int × CatnerState :=
  match s.generator with
  | none =>
      let hlen := ((s.doc.get? headerPath).getD (.elem "HEADER" [])).children.length
      (0, { s with
              doc := (s.doc.modify headerPath
                (·.pushChild (libcatner_add_child "GENERATOR_INFO" (some value))))
              generator := some (headerPath ++ [hlen]) })
  | some p => (0, { s with doc := s.doc.modify p (xmlNodeSetContent · value) })

/-- The ARTICLE node `catner_add_article` creates: `SUPPLIER_AID` child, then
an `ARTICLE_DETAILS` child holding the optional title and description. -/
def mkArticleNode (aid : String) (title descr : Option String) : XNode :=
  .elem "ARTICLE"
    [.elem "SUPPLIER_AID" [.text aid],
     .elem "ARTICLE_DETAILS"
       ((match title with
         | some t => [XNode.elem "DESCRIPTION_SHORT" [.text t]]
         | none => []) ++
        (match descr with
         | some d => [XNode.elem "DESCRIPTION_LONG" [.text d]]
         | none => []))]

/-- `catner_add_article`: reject an empty AID (with `LIBCATNER_ERR_NO_SUCH_AID`)
or a duplicate AID; otherwise append a fresh ARTICLE node. -/
def catner_add_article (s : CatnerState) (aid : String) (title descr : Option String) :
    Int × CatnerState :=
  if aid.length == 0 then
    (-1, { s with error := LIBCATNER_ERR_NO_SUCH_AID })
  else
    match libcatner_get_article s.articlesNode aid with
    | some _ => (-1, { s with error := LIBCATNER_ERR_ALREADY_EXISTS })
    | none =>
        (0, { s with doc := (s.doc.modify articlesPath
                (·.pushChild (mkArticleNode aid title descr))) })

/-- `catner_add_article_image`: find-or-create the `MIME_INFO` container,
reject when some `MIME` child already holds a `MIME_SOURCE` with `path`
(a freshly created empty container persists but can hold no duplicate),
otherwise append a `MIME` node with type and source fields. -/
def catner_add_article_image (s : CatnerState) (aid : Option String) (mime path : String) :
    Int × CatnerState :=
  match s.resolveArticle aid with
  | none => (-1, { s with error := LIBCATNER_ERR_NO_SUCH_AID })
  | some (p, article) =>
      let (ii, article1) := libcatner_get_child_add article "MIME_INFO" none
      let images := (article1.children[ii]?).getD (.elem "MIME_INFO" [])
      if images.children.any
          (fun img => (libcatner_find_child img "MIME_SOURCE" (some path)).isSome) then
        (-1, { s with error := LIBCATNER_ERR_ALREADY_EXISTS,
                      doc := s.doc.modify p (fun _ => article1) })
      else
        let image : XNode := .elem "MIME"
          [.elem "MIME_TYPE" [.text mime], .elem "MIME_SOURCE" [.text path]]
        (0, { s with doc := (s.doc.modify p
                (fun _ => article1.withChild ii (·.pushChild image))) })

/-- Mutation `catner_add_article_unit` performs inside the article's
`ARTICLE_ORDER_DETAILS` node for effective code `c` and factor `f`: both
lookups (alternative unit with code `c`; `ORDER_UNIT`) happen before any
mutation; a missing main unit is created with value `c` unconditionally, an
existing one is overwritten when `main` is set; a missing alternative unit is
appended with code and factor, an existing one has (only) its factor field
overwritten — `xmlNodeSetContent(NULL, ...)` being a no-op covers an
alternative unit without a factor child. -/
def addUnitDetails (details : XNode) (c f : String) (main : Bool) : XNode :=
  let altIdx := (findWithIdx (fun ch => ch.name == "ALTERNATIVE_UNIT" &&
      (libcatner_find_child ch "ALTERNATIVE_UNIT_CODE" (some c)).isSome)
      details.children).map (fun r => r.1)
  let mainIdx := (libcatner_find_child details "ORDER_UNIT" none).map (fun r => r.1)
  let details1 :=
    match mainIdx with
    | none => details.pushChild (.elem "ORDER_UNIT" [.text c])
    | some mi => if main then details.withChild mi (xmlNodeSetContent · c) else details
  match altIdx with
  | none =>
      details1.pushChild (.elem "ALTERNATIVE_UNIT"
        [.elem "ALTERNATIVE_UNIT_CODE" [.text c],
         .elem "ALTERNATIVE_UNIT_FACTOR" [.text f]])
  | some ai =>
      details1.withChild ai (fun alt =>
        match libcatner_find_child alt "ALTERNATIVE_UNIT_FACTOR" none with
        | none => alt
        | some r => alt.withChild r.1 (xmlNodeSetContent · f))

/-- Mutation `catner_add_article_unit` performs on the ARTICLE node:
find-or-create `ARTICLE_ORDER_DETAILS`, then update it via `addUnitDetails`
with the effective code and factor. -/
def addUnitArticle (article : XNode) (c f : String) (main : Bool) : XNode :=
  let r := libcatner_get_child_add article "ARTICLE_ORDER_DETAILS" none
  r.2.withChild r.1 (addUnitDetails · c f main)

/-- `catner_add_article_unit`: resolve the article, apply defaults for code
and factor, then apply `addUnitArticle` at the article's position. -/
def catner_add_article_unit (s : CatnerState) (aid code factor : Option String)
    (main : Bool) : Int × CatnerState :=
  match s.resolveArticle aid with
  | none => (-1, { s with error := LIBCATNER_ERR_NO_SUCH_AID })
  | some (p, article) =>
      (0, { s with doc := (s.doc.modify p
              (fun _ => addUnitArticle article
                (code.getD LIBCATNER_DEF_UNIT_CODE)
                (factor.getD LIBCATNER_DEF_UNIT_FACTOR) main)) })

/-- The FEATURE node `catner_add_feature` creates: `FID` and `FORDER`
always, then whichever of name/description/unit/value were supplied —
omitted arguments produce no node at all. -/
def mkFeatureNode (fid ord : String) (name descr unit value : Option String) : XNode :=
  .elem "FEATURE"
    ([XNode.elem "FID" [.text fid], XNode.elem "FORDER" [.text ord]] ++
      (match name with | some v => [XNode.elem "FNAME" [.text v]] | none => []) ++
      (match descr with | some v => [XNode.elem "FDESCR" [.text v]] | none => []) ++
      (match unit with | some v => [XNode.elem "FUNIT" [.text v]] | none => []) ++
      (match value with | some v => [XNode.elem "FVALUE" [.text v]] | none => []))

/-- Mutation `catner_add_feature` performs on the ARTICLE node once the FID
was found to be free: compute `order = number of existing features + 1`,
find-or-create `ARTICLE_FEATURES`, and append the new FEATURE node to it. -/
def addFeatureArticle (article : XNode) (fid : String)
    (name descr unit value : Option String) : XNode :=
  let ord := toString (libcatner_num_features article + 1)
  let r := libcatner_get_child_add article "ARTICLE_FEATURES" none
  r.2.withChild r.1 (·.pushChild (mkFeatureNode fid ord name descr unit value))

/-- `catner_add_feature`: reject a missing article or duplicate FID;
otherwise apply `addFeatureArticle` at the article's position. -/
def catner_add_feature (s : CatnerState) (aid : Option String) (fid : String)
    (name descr unit value : Option String) : Int × CatnerState :=
  match s.resolveArticle aid with
  | none => (-1, { s with error := LIBCATNER_ERR_NO_SUCH_AID })
  | some (p, article) =>
      match libcatner_get_feature article fid with
      | some _ => (-1, { s with error := LIBCATNER_ERR_ALREADY_EXISTS })
      | none =>
          (0, { s with doc := (s.doc.modify p
                  (fun _ => addFeatureArticle article fid name descr unit value)) })

/-- The `feature = fid ? libcatner_get_feature(...) : cs->_curr_feature`
pattern: resolves to the feature's path and node, given the already resolved
article. -/
def CatnerState.resolveFeature (s : CatnerState) (p : XPath) (article : XNode)
    (fid : Option String) : Option (XPath × XNode) :=
  match fid with
  | some f => (libcatner_get_feature article f).map
      (fun r => (p ++ [r.1, r.2.1], r.2.2))
  | none => s.currFeature.bind (fun q => (s.doc.get? q).map (fun n => (q, n)))

/-- Mutation `catner_add_variant` performs on the FEATURE node:
find-or-create `VARIANTS`, reject a duplicate VID, delete the feature's
(first) scalar `FVALUE` child when present — the surviving `VARIANTS`
pointer's index shifts down when `FVALUE` preceded it — then append the new
VARIANT.  Returns the C result code with the updated feature.  The two outer
branches spell out `libcatner_get_child_add`: when the `VARIANTS` container
is found it sits at index `vi`, otherwise a fresh empty container is
appended at index `feature.children.length` (an empty container holds no
duplicate, so the duplicate scan trivially passes there). -/
def addVariantFeature (feature : XNode) (vid value : String) : Int × XNode :=
  match libcatner_find_child feature "VARIANTS" none with
  | some (vi, variants) =>
      if variants.children.any (fun ch => ch.name == "VARIANT" &&
          (libcatner_find_child ch "SUPPLIER_AID_SUPPLEMENT" (some vid)).isSome) then
        (-1, feature)
      else
        match libcatner_find_child feature "FVALUE" none with
        | some (fvi, _) =>
            (0, (feature.mapChildren (removeIdx · fvi)).withChild
              (if fvi < vi then vi - 1 else vi)
              (·.pushChild (.elem "VARIANT" [.elem "SUPPLIER_AID_SUPPLEMENT" [.text vid],
                .elem "FVALUE" [.text value]])))
        | none =>
            (0, feature.withChild vi
              (·.pushChild (.elem "VARIANT" [.elem "SUPPLIER_AID_SUPPLEMENT" [.text vid],
                .elem "FVALUE" [.text value]])))
  | none =>
      match libcatner_find_child (feature.pushChild (.elem "VARIANTS" [])) "FVALUE" none with
      | some (fvi, _) =>
          (0, ((feature.pushChild (.elem "VARIANTS" [])).mapChildren (removeIdx · fvi)).withChild
            (if fvi < feature.children.length then feature.children.length - 1
             else feature.children.length)
            (·.pushChild (.elem "VARIANT" [.elem "SUPPLIER_AID_SUPPLEMENT" [.text vid],
              .elem "FVALUE" [.text value]])))
      | none =>
          (0, (feature.pushChild (.elem "VARIANTS" [])).withChild feature.children.length
            (·.pushChild (.elem "VARIANT" [.elem "SUPPLIER_AID_SUPPLEMENT" [.text vid],
              .elem "FVALUE" [.text value]])))

/-- `catner_add_variant`: resolve article and feature, then apply
`addVariantFeature` at the feature's position. -/
def catner_add_variant (s : CatnerState) (aid fid : Option String) (vid value : String) :
    Int × CatnerState :=
  match s.resolveArticle aid with
  | none => (-1, { s with error := LIBCATNER_ERR_NO_SUCH_AID })
  | some (p, article) =>
      match s.resolveFeature p article fid with
      | none => (-1, { s with error := LIBCATNER_ERR_NO_SUCH_FID })
      | some (fp, feature) =>
          let r := addVariantFeature feature vid value
          if r.1 == 0 then
            (0, { s with doc := s.doc.modify fp (fun _ => r.2) })
          else
            (-1, { s with error := LIBCATNER_ERR_ALREADY_EXISTS,
                          doc := s.doc.modify fp (fun _ => r.2) })

/-! ### Public API: SET (feature properties) -/

/-- `catner_set_feature_prop`: resolve article and feature, then
`libcatner_set_child` on the given property name. -/
def catner_set_feature_prop (s : CatnerState) (aid fid : Option String)
    (prop value : String) (add : Bool) : Int × CatnerState :=
  match s.resolveArticle aid with
  | none => (-1, { s with error := LIBCATNER_ERR_NO_SUCH_AID })
  | some (p, article) =>
      match s.resolveFeature p article fid with
      | none => (-1, { s with error := LIBCATNER_ERR_NO_SUCH_FID })
      | some (fp, feature) =>
          let r := libcatner_set_child feature prop value add
          (r.1, { s with doc := s.doc.modify fp (fun _ => r.2) })

/-- `catner_set_feature_value`: set (or create) the feature's `FVALUE`. -/
def catner_set_feature_value (s : CatnerState) (aid fid : Option String)
    (value : String) : Int × CatnerState :=
  catner_set_feature_prop s aid fid "FVALUE" value true

/-! ### Public API: DEL -/

/-- `catner_del_article`: resolve and unlink the article; when it was the
currently selected one, reset the article, feature, variant and image
cursors — the C code does not touch `_curr_unit` here. -/
def catner_del_article (s : CatnerState) (aid : Option String) : Int × CatnerState :=
  match s.resolveArticle aid with
  | none => (-1, { s with error := LIBCATNER_ERR_NO_SUCH_AID })
  | some (p, _) =>
      let s1 :=
        if s.currArticle == some p then
          { s with currArticle := none, currFeature := none,
                   currVariant := none, currImage := none }
        else s
      (0, { s1 with doc := s1.doc.removeAt p })

/-- `catner_del_article_image`: fail only when the article or its `MIME_INFO`
container is missing.  The image lookup asks for a `MIME_SOURCE` node among
the **direct** children of `MIME_INFO` (the path fields actually sit one
level deeper, inside the `MIME` nodes), `libcatner_del_node(NULL)` is a
no-op, and the function then reports success. -/
def catner_del_article_image (s : CatnerState) (aid : Option String) (path : String) :
    Int × CatnerState :=
  match s.resolveArticle aid with
  | none => (-1, { s with error := LIBCATNER_ERR_NO_SUCH_AID })
  | some (p, article) =>
      match libcatner_find_child article "MIME_INFO" none with
      | none => (-1, { s with error := LIBCATNER_ERR_NO_SUCH_NODE })
      | some (ii, images) =>
          let img? := (libcatner_find_child images "MIME_SOURCE" (some path)).map
            (fun r => p ++ [ii, r.1])
          let s1 := if s.currImage == img? then { s with currImage := none } else s
          match img? with
          | none => (0, s1)
          | some ip => (0, { s1 with doc := s1.doc.removeAt ip })

/-- `catner_del_feature`: resolve article and feature, reset the feature and
variant cursors when the deleted feature was selected, unlink the feature,
then renumber the remaining features via `libcatner_fix_feature_order`. -/
def catner_del_feature (s : CatnerState) (aid fid : Option String) : Int × CatnerState :=
  match s.resolveArticle aid with
  | none => (-1, { s with error := LIBCATNER_ERR_NO_SUCH_AID })
  | some (p, article) =>
      match s.resolveFeature p article fid with
      | none => (-1, { s with error := LIBCATNER_ERR_NO_SUCH_FID })
      | some (fp, _) =>
          let s1 :=
            if s.currFeature == some fp then
              { s with currFeature := none, currVariant := none }
            else s
          (0, { s1 with doc := (s1.doc.removeAt fp).modify p libcatner_fix_feature_order })

/-! ### Public API: SEL -/

/-- `catner_sel_article`: select the article with the given AID; on a change
of selection, reset the feature, variant, image and unit cursors. -/
def catner_sel_article (s : CatnerState) (aid : String) : Int × CatnerState :=
  match libcatner_get_article s.articlesNode aid with
  | none => (-1, { s with error := LIBCATNER_ERR_NO_SUCH_NODE })
  | some (i, _) =>
      let p := articlesPath ++ [i]
      if s.currArticle == some p then (0, s)
      else (0, { s with currArticle := some p, currFeature := none,
                        currVariant := none, currImage := none, currUnit := none })

/-- `catner_sel_first_article`: select the first ARTICLE child (or none); on
a change of selection, reset the subordinate cursors; fail when no article
ends up selected. -/
def catner_sel_first_article (s : CatnerState) : Int × CatnerState :=
  let first := (libcatner_find_child s.articlesNode "ARTICLE" none).map
    (fun r => articlesPath ++ [r.1])
  let s1 :=
    if s.currArticle == first then s
    else { s with currArticle := first, currFeature := none, currVariant := none,
                  currImage := none, currUnit := none }
  match s1.currArticle with
  | none => (-1, { s1 with error := LIBCATNER_ERR_NO_SUCH_NODE })
  | some _ => (0, s1)

/-- `catner_sel_next_article`: with no selection, fail untouched; otherwise
advance the article cursor to the next ARTICLE sibling (possibly none) and
reset the feature, variant, image and unit cursors unconditionally, failing
when the advance ran off the end. -/
def catner_sel_next_article (s : CatnerState) : Int × CatnerState :=
  match s.currArticle with
  | none => (-1, { s with error := LIBCATNER_ERR_NO_SEL_ARTICLE })
  | some p =>
      let nxt := nextPath s.doc p
      let s1 := { s with currArticle := nxt, currFeature := none, currVariant := none,
                         currImage := none, currUnit := none }
      match nxt with
      | none => (-1, { s1 with error := LIBCATNER_ERR_NO_SUCH_NODE })
      | some _ => (0, s1)

/-- `catner_sel_feature`: require a selected article, look the FID up inside
it, and on a change of feature selection reset the variant cursor. -/
def catner_sel_feature (s : CatnerState) (fid : String) : Int × CatnerState :=
  match s.currArticle with
  | none => (-1, { s with error := LIBCATNER_ERR_NO_SEL_ARTICLE })
  | some p =>
      match (s.doc.get? p).bind (fun a => libcatner_get_feature a fid) with
      | none => (-1, { s with error := LIBCATNER_ERR_NO_SUCH_NODE })
      | some (fi, j, _) =>
          let fp := p ++ [fi, j]
          if s.currFeature == some fp then (0, s)
          else (0, { s with currFeature := some fp, currVariant := none })

/-- `catner_sel_first_unit`: require a selected article and its
`ARTICLE_ORDER_DETAILS` container, then point the unit cursor at the first
`ALTERNATIVE_UNIT` child (the assignment happens even when there is none). -/
def catner_sel_first_unit (s : CatnerState) : Int × CatnerState :=
  match s.currArticle with
  | none => (-1, { s with error := LIBCATNER_ERR_NO_SEL_ARTICLE })
  | some p =>
      match (s.doc.get? p).bind
          (fun a => libcatner_find_child a "ARTICLE_ORDER_DETAILS" none) with
      | none => (-1, { s with error := LIBCATNER_ERR_NO_SUCH_NODE })
      | some (ui, units) =>
          match libcatner_find_child units "ALTERNATIVE_UNIT" none with
          | none => (-1, { s with currUnit := none, error := LIBCATNER_ERR_NO_SUCH_NODE })
          | some (k, _) => (0, { s with currUnit := some (p ++ [ui, k]) })

/-! ### Observers used to state the claims -/

/-- Content of the first child named `name`, if any (the pattern every getter
in the C code uses: `libcatner_get_child` + `xmlNodeGetContent`). -/
def childContent (n : XNode) (name : String) : Option String :=
  (libcatner_find_child n name none).map (fun r => r.2.content)

/-- The article's first `ARTICLE_ORDER_DETAILS` child, if any. -/
def unitsNodeOf (article : XNode) : Option XNode :=
  (libcatner_find_child article "ARTICLE_ORDER_DETAILS" none).map (fun r => r.2)

/-- `(code, factor)` contents of the article's `ALTERNATIVE_UNIT` nodes in
sibling order. -/
def altUnitsOf (article : XNode) : List (Option String × Option String) :=
  match unitsNodeOf article with
  | none => []
  | some d =>
      (d.children.filter (fun u => u.name == "ALTERNATIVE_UNIT")).map
        (fun u => (childContent u "ALTERNATIVE_UNIT_CODE",
                   childContent u "ALTERNATIVE_UNIT_FACTOR"))

/-- Content of the article's (first) main unit `ORDER_UNIT` node. -/
def mainUnitOf (article : XNode) : Option String :=
  (unitsNodeOf article).bind (fun d => childContent d "ORDER_UNIT")

/-- Number of `ORDER_UNIT` children of the article's unit block. -/
def numMainUnitsOf (article : XNode) : Nat :=
  match unitsNodeOf article with
  | none => 0
  | some d => libcatner_num_children d "ORDER_UNIT" none

/-- The `FEATURE` children of the article's first `ARTICLE_FEATURES` child,
in sibling order. -/
def featListOf (article : XNode) : List XNode :=
  match libcatner_find_child article "ARTICLE_FEATURES" none with
  | none => []
  | some (_, features) => features.children.filter (fun c => c.name == "FEATURE")

/-- The features' `FORDER` contents, in sibling order. -/
def featOrdersOf (article : XNode) : List (Option String) :=
  (featListOf article).map (fun f => childContent f "FORDER")

/-- Invariant of claim C3: the `FORDER` values of an article's features are
exactly `"1" .. "N"` in sibling order, `N` the number of features — i.e.
every feature's order value is its 1-based rank. -/
def featureOrderInv (article : XNode) : Prop :=
  featOrdersOf article =
    (List.range (featListOf article).length).map (fun k => some (toString (k + 1)))

instance (article : XNode) : Decidable (featureOrderInv article) := by
  unfold featureOrderInv; infer_instance

/-- All articles of the document satisfy the feature-order invariant. -/
def FeatureOrdersOK (s : CatnerState) : Prop :=
  ∀ a ∈ s.articlesNode.children, featureOrderInv a

instance (s : CatnerState) : Decidable (FeatureOrdersOK s) := by
  unfold FeatureOrdersOK; infer_instance

/-- Number of `GENERATOR_INFO` children of the `HEADER` node. -/
def numGeneratorNodes (s : CatnerState) : Nat :=
  match s.doc.get? headerPath with
  | none => 0
  | some h => libcatner_num_children h "GENERATOR_INFO" none

/-- Number of `MIME` image nodes of the article's `MIME_INFO` container. -/
def numImagesOf (article : XNode) : Nat :=
  match libcatner_find_child article "MIME_INFO" none with
  | none => 0
  | some (_, images) => libcatner_num_children images "MIME" none

/-- Article node looked up by AID, as `libcatner_get_article` finds it. -/
def articleNodeOf (s : CatnerState) (aid : String) : Option XNode :=
  (libcatner_get_article s.articlesNode aid).map (fun r => r.2)

/-- Feature node looked up by AID and FID. -/
def featureNodeOf (s : CatnerState) (aid fid : String) : Option XNode :=
  (articleNodeOf s aid).bind (fun a => (libcatner_get_feature a fid).map (fun r => r.2.2))

/-! ### Operation sequences for the feature-order invariant (claim C3) -/

/-- One `catner_add_feature` / `catner_del_feature` call with explicit AID
and FID arguments. -/
inductive FeatOp : Type where
  | addF (aid fid : String) (name descr unit value : Option String)
  | delF (aid fid : String)
  deriving Repr

/-- Apply one feature operation to a handle (result code discarded). -/
def applyFeatOp (s : CatnerState) : FeatOp → CatnerState
  | .addF aid fid name descr unit value =>
      (catner_add_feature s (some aid) fid name descr unit value).2
  | .delF aid fid => (catner_del_feature s (some aid) (some fid)).2

/-- Apply a sequence of feature operations in order. -/
def applyFeatOps (s : CatnerState) : List FeatOp → CatnerState
  | [] => s
  | op :: ops => applyFeatOps (applyFeatOp s op) ops

/-! ### Concrete fixtures for witnesses and counterexamples -/

/-- Fresh catalog with a single article `A1`. -/
def exArticle : CatnerState :=
  (catner_add_article catner_init "A1" (some "T") (some "D")).2

/-- `exArticle` with a feature `F1` added to `A1`. -/
def exFeature : CatnerState :=
  (catner_add_feature exArticle (some "A1") "F1" (some "n1") none none none).2

/-- `exFeature` with an alternative unit added to `A1`. -/
def exUnit : CatnerState :=
  (catner_add_article_unit exFeature (some "A1") (some "PCE") none true).2

/-- `exUnit` with article `A1`, feature `F1` and the first unit selected. -/
def exSelected : CatnerState :=
  (catner_sel_first_unit
    (catner_sel_feature (catner_sel_article exUnit "A1").2 "F1").2).2

/-- `exArticle` with an image added to `A1`. -/
def exImage : CatnerState :=
  (catner_add_article_image exArticle (some "A1") "image/jpg" "img.jpg").2

/-- `exArticle` with feature `F1` carrying a scalar `FVALUE`. -/
def exFeatValue : CatnerState :=
  (catner_add_feature exArticle (some "A1") "F1" (some "n1") none none (some "42")).2

/-- `exFeatValue` after adding variant `V1` to `F1`. -/
def exVariant : CatnerState :=
  (catner_add_variant exFeatValue (some "A1") (some "F1") "V1" "x").2

/-- `exVariant` after `catner_set_feature_value` put a scalar back. -/
def exVariantValue : CatnerState :=
  (catner_set_feature_value exVariant (some "A1") (some "F1") "y").2

/-- A sample feature-operation sequence for the C3 witness. -/
def exFeatOps : List FeatOp :=
  [.addF "A1" "F1" (some "n1") none none none,
   .addF "A1" "F2" (some "n2") none none none,
   .addF "A1" "F3" (some "n3") none none none,
   .delF "A1" "F2",
   .addF "A1" "F4" none none none none,
   .delF "A1" "missing"]

/-! ### Lemmas: list-level search and mutation -/

theorem findWithIdx_cons (p : XNode → Bool) (c : XNode) (cs : List XNode) :
    findWithIdx p (c :: cs) =
      if p c then some (0, c)
      else (findWithIdx p cs).map (fun r => (r.1 + 1, r.2)) := rfl

theorem findWithIdx_eq_some {p : XNode → Bool} {l : List XNode} {i : Nat} {x : XNode}
    (h : findWithIdx p l = some (i, x)) : l[i]? = some x ∧ p x = true := by
  induction l generalizing i with
  | nil => simp [findWithIdx] at h
  | cons c cs ih =>
      rw [findWithIdx_cons] at h
      by_cases hc : p c
      · rw [if_pos hc] at h
        injection h with h
        injection h with h1 h2
        subst h1; subst h2
        exact ⟨by simp, hc⟩
      · rw [if_neg hc] at h
        cases hfind : findWithIdx p cs with
        | none => rw [hfind] at h; simp at h
        | some r =>
            rw [hfind] at h
            simp only [Option.map_some'] at h
            injection h with h
            have h1 : r.1 + 1 = i := congrArg Prod.fst h
            have h2 : r.2 = x := congrArg Prod.snd h
            subst h2
            have := ih (show findWithIdx p cs = some (r.1, r.2) from by rw [hfind])
            rw [← h1]
            simpa using this

theorem findWithIdx_eq_none {p : XNode → Bool} {l : List XNode}
    (h : findWithIdx p l = none) : ∀ x ∈ l, p x = false := by
  induction l with
  | nil => simp
  | cons c cs ih =>
      rw [findWithIdx_cons] at h
      by_cases hc : p c
      · rw [if_pos hc] at h; simp at h
      · rw [if_neg hc] at h
        intro x hx
        rw [List.mem_cons] at hx
        rcases hx with rfl | hx
        · simpa using hc
        · cases hfind : findWithIdx p cs with
          | none => exact ih hfind _ hx
          | some r => rw [hfind] at h; simp at h

theorem findWithIdx_append_left {p : XNode → Bool} {l : List XNode} {r : Nat × XNode}
    (l' : List XNode) (h : findWithIdx p l = some r) :
    findWithIdx p (l ++ l') = some r := by
  induction l generalizing r with
  | nil => simp [findWithIdx] at h
  | cons c cs ih =>
      rw [findWithIdx_cons] at h
      rw [List.cons_append, findWithIdx_cons]
      by_cases hc : p c
      · rw [if_pos hc] at h ⊢; exact h
      · rw [if_neg hc] at h ⊢
        cases hfind : findWithIdx p cs with
        | none => rw [hfind] at h; simp at h
        | some r' => rw [hfind] at h; rw [ih hfind]; exact h

theorem findWithIdx_append_none {p : XNode → Bool} {l l' : List XNode}
    (h : findWithIdx p l = none) (h' : findWithIdx p l' = none) :
    findWithIdx p (l ++ l') = none := by
  induction l with
  | nil => simpa using h'
  | cons c cs ih =>
      rw [findWithIdx_cons] at h
      rw [List.cons_append, findWithIdx_cons]
      by_cases hc : p c
      · rw [if_pos hc] at h; simp at h
      · rw [if_neg hc] at h ⊢
        cases hfind : findWithIdx p cs with
        | none => rw [ih hfind]; rfl
        | some r => rw [hfind] at h; simp at h

theorem findWithIdx_append_some_right {p : XNode → Bool} {l l' : List XNode}
    {j : Nat} {x : XNode} (h : findWithIdx p l = none)
    (h' : findWithIdx p l' = some (j, x)) :
    findWithIdx p (l ++ l') = some (l.length + j, x) := by
  induction l with
  | nil => simpa using h'
  | cons c cs ih =>
      rw [findWithIdx_cons] at h
      rw [List.cons_append, findWithIdx_cons]
      by_cases hc : p c
      · rw [if_pos hc] at h; simp at h
      · rw [if_neg hc] at h ⊢
        cases hfind : findWithIdx p cs with
        | none =>
            rw [ih hfind]
            simp only [Option.map_some', List.length_cons]
            congr 2
            omega
        | some r => rw [hfind] at h; simp at h

theorem findWithIdx_push {p : XNode → Bool} {l : List XNode} {x : XNode}
    (h : findWithIdx p l = none) (hx : p x = true) :
    findWithIdx p (l ++ [x]) = some (l.length, x) := by
  have h1 : findWithIdx p [x] = some (0, x) := by
    rw [show ([x] : List XNode) = x :: [] from rfl, findWithIdx_cons, if_pos hx]
  simpa using findWithIdx_append_some_right h h1

theorem findWithIdx_set_of_pred {p : XNode → Bool} {l : List XNode} {i : Nat}
    {x y : XNode} (h : findWithIdx p l = some (i, x)) (hy : p y = true) :
    findWithIdx p (modifyIdx (fun _ => y) l i) = some (i, y) := by
  induction l generalizing i with
  | nil => simp [findWithIdx] at h
  | cons c cs ih =>
      rw [findWithIdx_cons] at h
      by_cases hc : p c
      · rw [if_pos hc] at h
        injection h with h
        have h1 : 0 = i := congrArg Prod.fst h
        subst h1
        rw [show modifyIdx (fun _ => y) (c :: cs) 0 = y :: cs from rfl,
          findWithIdx_cons, if_pos hy]
      · rw [if_neg hc] at h
        cases hfind : findWithIdx p cs with
        | none => rw [hfind] at h; simp at h
        | some r =>
            obtain ⟨ri, rx⟩ := r
            rw [hfind] at h
            simp only [Option.map_some'] at h
            injection h with h
            have h1 : ri + 1 = i := congrArg Prod.fst h
            have h2 : rx = x := congrArg Prod.snd h
            subst h2
            subst h1
            rw [show modifyIdx (fun _ => y) (c :: cs) (ri + 1) =
              c :: modifyIdx (fun _ => y) cs ri from rfl, findWithIdx_cons, if_neg hc]
            rw [ih hfind]
            rfl

theorem findWithIdx_modifyIdx_congr {p : XNode → Bool} {g : XNode → XNode}
    (hg : ∀ x, p (g x) = p x) (l : List XNode) (i : Nat) :
    findWithIdx p (modifyIdx g l i) =
      (findWithIdx p l).map (fun r => (r.1, if r.1 = i then g r.2 else r.2)) := by
  induction l generalizing i with
  | nil => simp [findWithIdx, modifyIdx]
  | cons c cs ih =>
      cases i with
      | zero =>
          rw [show modifyIdx g (c :: cs) 0 = g c :: cs from rfl,
            findWithIdx_cons, findWithIdx_cons, hg c]
          by_cases hc : p c
          · rw [if_pos hc, if_pos hc]; simp
          · rw [if_neg hc, if_neg hc]
            cases hfind : findWithIdx p cs with
            | none => simp
            | some r => simp
      | succ j =>
          rw [show modifyIdx g (c :: cs) (j + 1) = c :: modifyIdx g cs j from rfl,
            findWithIdx_cons, findWithIdx_cons]
          by_cases hc : p c
          · rw [if_pos hc, if_pos hc]; simp
          · rw [if_neg hc, if_neg hc, ih]
            cases hfind : findWithIdx p cs with
            | none => simp
            | some r => simp [Nat.succ_inj]

theorem getElem?_modifyIdx (g : XNode → XNode) (l : List XNode) (i j : Nat) :
    (modifyIdx g l i)[j]? = if j = i then l[j]?.map g else l[j]? := by
  induction l generalizing i j with
  | nil => simp [modifyIdx]
  | cons c cs ih =>
      cases i with
      | zero =>
          cases j with
          | zero => simp [modifyIdx]
          | succ m => simp [modifyIdx]
      | succ k =>
          cases j with
          | zero => simp [modifyIdx]
          | succ m =>
              rw [show modifyIdx g (c :: cs) (k + 1) = c :: modifyIdx g cs k from rfl]
              simp only [List.getElem?_cons_succ, ih, Nat.succ_inj]

theorem getElem?_removeIdx (l : List XNode) (j i : Nat) :
    (removeIdx l j)[i]? = if i < j then l[i]? else l[i + 1]? := by
  induction l generalizing i j with
  | nil => simp [removeIdx]
  | cons c cs ih =>
      cases j with
      | zero => simp [removeIdx]
      | succ k =>
          rw [show removeIdx (c :: cs) (k + 1) = c :: removeIdx cs k from rfl]
          cases i with
          | zero => simp
          | succ m =>
              simp only [List.getElem?_cons_succ, ih, Nat.succ_lt_succ_iff]

theorem length_modifyIdx (g : XNode → XNode) (l : List XNode) (i : Nat) :
    (modifyIdx g l i).length = l.length := by
  induction l generalizing i with
  | nil => rfl
  | cons c cs ih =>
      cases i with
      | zero => rfl
      | succ k => simpa [modifyIdx] using ih k

theorem modifyIdx_append_length (g : XNode → XNode) (l : List XNode) (x : XNode) :
    modifyIdx g (l ++ [x]) l.length = l ++ [g x] := by
  induction l with
  | nil => rfl
  | cons c cs ih => simpa [modifyIdx] using ih

theorem modifyIdx_append_left (g : XNode → XNode) {l : List XNode} (l' : List XNode)
    {i : Nat} (h : i < l.length) :
    modifyIdx g (l ++ l') i = modifyIdx g l i ++ l' := by
  induction l generalizing i with
  | nil => simp at h
  | cons c cs ih =>
      cases i with
      | zero => rfl
      | succ k =>
          have hk : k < cs.length := by simpa using h
          simpa [modifyIdx] using ih hk

theorem countP_modifyIdx_congr {p : XNode → Bool} {g : XNode → XNode}
    (hg : ∀ x, p (g x) = p x) (l : List XNode) (i : Nat) :
    (modifyIdx g l i).countP p = l.countP p := by
  induction l generalizing i with
  | nil => rfl
  | cons c cs ih =>
      cases i with
      | zero => simp [modifyIdx, List.countP_cons, hg]
      | succ k =>
          rw [show modifyIdx g (c :: cs) (k + 1) = c :: modifyIdx g cs k from rfl]
          simp [List.countP_cons, ih]

theorem countP_removeIdx_found {p : XNode → Bool} {l : List XNode} {i : Nat} {x : XNode}
    (h : findWithIdx p l = some (i, x)) :
    (removeIdx l i).countP p = l.countP p - 1 := by
  induction l generalizing i with
  | nil => simp [findWithIdx] at h
  | cons c cs ih =>
      rw [findWithIdx_cons] at h
      by_cases hc : p c
      · rw [if_pos hc] at h
        injection h with h
        have h1 : 0 = i := congrArg Prod.fst h
        subst h1
        simp [removeIdx, List.countP_cons, hc]
      · rw [if_neg hc] at h
        cases hfind : findWithIdx p cs with
        | none => rw [hfind] at h; simp at h
        | some r =>
            obtain ⟨ri, rx⟩ := r
            rw [hfind] at h
            simp only [Option.map_some'] at h
            injection h with h
            have h1 : ri + 1 = i := congrArg Prod.fst h
            subst h1
            rw [show removeIdx (c :: cs) (ri + 1) = c :: removeIdx cs ri from rfl]
            have hxx : rx = x := congrArg Prod.snd h
            subst hxx
            have hcount := ih hfind
            simp [List.countP_cons, hc, hcount]

theorem findWithIdx_removeIdx {p : XNode → Bool} {l : List XNode} {i : Nat} {x : XNode}
    (h : findWithIdx p l = some (i, x)) {j : Nat} (hji : j ≠ i) :
    findWithIdx p (removeIdx l j) = some (if j < i then i - 1 else i, x) := by
  induction l generalizing i j with
  | nil => simp [findWithIdx] at h
  | cons c cs ih =>
      rw [findWithIdx_cons] at h
      by_cases hc : p c
      · rw [if_pos hc] at h
        injection h with h
        have h1 : 0 = i := congrArg Prod.fst h
        have h2 : c = x := congrArg Prod.snd h
        subst h1; subst h2
        cases j with
        | zero => exact absurd rfl hji
        | succ k =>
            rw [show removeIdx (c :: cs) (k + 1) = c :: removeIdx cs k from rfl,
              findWithIdx_cons, if_pos hc]
            simp
      · rw [if_neg hc] at h
        cases hfind : findWithIdx p cs with
        | none => rw [hfind] at h; simp at h
        | some r =>
            obtain ⟨ri, rx⟩ := r
            rw [hfind] at h
            simp only [Option.map_some'] at h
            injection h with h
            have h1 : ri + 1 = i := congrArg Prod.fst h
            have h2 : rx = x := congrArg Prod.snd h
            subst h2; subst h1
            cases j with
            | zero =>
                rw [show removeIdx (c :: cs) 0 = cs from rfl, hfind]
                simp
            | succ k =>
                have hki : k ≠ ri := fun hk => hji (by rw [hk])
                rw [show removeIdx (c :: cs) (k + 1) = c :: removeIdx cs k from rfl,
                  findWithIdx_cons, if_neg hc, ih (by rw [hfind]) hki]
                simp only [Option.map_some']
                congr 2
                by_cases hlt : k < ri
                · rw [if_pos hlt, if_pos (by omega)]
                  omega
                · rw [if_neg hlt, if_neg (by omega)]

theorem mem_modifyIdx {g : XNode → XNode} {l : List XNode} {i : Nat} {b : XNode}
    (h : b ∈ modifyIdx g l i) : b ∈ l ∨ ∃ x ∈ l, b = g x := by
  induction l generalizing i with
  | nil => simp [modifyIdx] at h
  | cons c cs ih =>
      cases i with
      | zero =>
          rw [show modifyIdx g (c :: cs) 0 = g c :: cs from rfl, List.mem_cons] at h
          rcases h with rfl | h
          · exact Or.inr ⟨c, List.mem_cons_self c cs, rfl⟩
          · exact Or.inl (List.mem_cons_of_mem c h)
      | succ k =>
          rw [show modifyIdx g (c :: cs) (k + 1) = c :: modifyIdx g cs k from rfl,
            List.mem_cons] at h
          rcases h with rfl | h
          · exact Or.inl (List.mem_cons_self b cs)
          · rcases ih h with h' | ⟨x, hx, rfl⟩
            · exact Or.inl (List.mem_cons_of_mem c h')
            · exact Or.inr ⟨x, List.mem_cons_of_mem c hx, rfl⟩

/-! ### Lemmas: node structure -/

theorem XNode.name_mapChildren (f : List XNode → List XNode) (n : XNode) :
    (n.mapChildren f).name = n.name := by
  cases n <;> rfl

theorem XNode.name_withChild (n : XNode) (i : Nat) (f : XNode → XNode) :
    (n.withChild i f).name = n.name := XNode.name_mapChildren _ n

theorem XNode.name_pushChild (n : XNode) (c : XNode) :
    (n.pushChild c).name = n.name := XNode.name_mapChildren _ n

theorem name_xmlNodeSetContent (n : XNode) (v : String) :
    (xmlNodeSetContent n v).name = n.name := by
  cases n <;> rfl

theorem name_set_child (n : XNode) (nm v : String) (add : Bool) :
    ((libcatner_set_child n nm v add).2).name = n.name := by
  unfold libcatner_set_child
  cases libcatner_find_child n nm none with
  | none =>
      cases add with
      | true => simp [XNode.name_pushChild]
      | false => simp
  | some r => simp [XNode.name_withChild]

theorem XNode.children_pushChild (nm : String) (cs : List XNode) (c : XNode) :
    (XNode.elem nm cs).pushChild c = .elem nm (cs ++ [c]) := rfl

theorem XNode.children_withChild (nm : String) (cs : List XNode) (i : Nat)
    (f : XNode → XNode) :
    (XNode.elem nm cs).withChild i f = .elem nm (modifyIdx f cs i) := rfl

theorem content_single (nm v : String) : (XNode.elem nm [XNode.text v]).content = v := by
  show XNode.content.go [XNode.text v] = v
  show XNode.content (XNode.text v) ++ XNode.content.go [] = v
  show v ++ "" = v
  exact String.append_empty v

theorem matchNV_none (nm : String) (c : XNode) :
    matchNV nm none c = (c.name == nm) := by
  simp [matchNV]

theorem matchNV_text_child_self (nm v : String) :
    matchNV nm (some v) (XNode.elem nm [XNode.text v]) = true := by
  simp [matchNV, libcatner_cmp_content, content_single, XNode.name]

/-! ### Lemmas: path access and mutation -/

theorem XNode.get?_modify_self (x : XNode) (p : XPath) (f : XNode → XNode) :
    (x.modify p f).get? p = (x.get? p).map f := by
  induction p generalizing x with
  | nil => rfl
  | cons i q ih =>
      show ((x.withChild i (modify · q f)).children[i]?).bind (get? · q) =
        ((x.children[i]?).bind (get? · q)).map f
      cases x with
      | text s => rfl
      | elem nm cs =>
          show ((modifyIdx (modify · q f) cs i)[i]?).bind (get? · q) =
            ((cs[i]?).bind (get? · q)).map f
          rw [getElem?_modifyIdx, if_pos rfl]
          cases cs[i]? with
          | none => rfl
          | some c =>
              show ((modify c q f).get? q) = (c.get? q).map f
              exact ih c

theorem XNode.modify_append (x : XNode) (p q : XPath) (f : XNode → XNode) :
    x.modify (p ++ q) f = x.modify p (fun n => n.modify q f) := by
  induction p generalizing x with
  | nil => rfl
  | cons i p' ih =>
      show x.withChild i (modify · (p' ++ q) f) = x.withChild i (modify · p' (fun n => n.modify q f))
      cases x with
      | text s => rfl
      | elem nm cs =>
          show XNode.elem nm (modifyIdx (modify · (p' ++ q) f) cs i) =
            XNode.elem nm (modifyIdx (modify · p' (fun n => n.modify q f)) cs i)
          congr 1
          have : (fun n => modify n (p' ++ q) f) = (fun n => modify n p' (fun m => m.modify q f)) := by
            funext n; exact ih n
          rw [this]

theorem XNode.modify_modify_self (x : XNode) (p : XPath) (f g : XNode → XNode) :
    (x.modify p f).modify p g = x.modify p (fun n => g (f n)) := by
  induction p generalizing x with
  | nil => rfl
  | cons i q ih =>
      cases x with
      | text s => rfl
      | elem nm cs =>
          show XNode.elem nm (modifyIdx (modify · q g) (modifyIdx (modify · q f) cs i) i) =
            XNode.elem nm (modifyIdx (modify · q (fun n => g (f n))) cs i)
          congr 1
          induction cs generalizing i with
          | nil => rfl
          | cons c cs' ih2 =>
              cases i with
              | zero =>
                  show modify (modify c q f) q g :: cs' = modify c q (fun n => g (f n)) :: cs'
                  rw [ih c]
              | succ k =>
                  show c :: modifyIdx _ (modifyIdx _ cs' k) k = c :: modifyIdx _ cs' k
                  congr 1
                  exact ih2 k

theorem XNode.removeAt_append (x : XNode) (p : XPath) {q : XPath} (hq : q ≠ []) :
    x.removeAt (p ++ q) = x.modify p (fun n => n.removeAt q) := by
  induction p generalizing x with
  | nil => rfl
  | cons i p' ih =>
      cases hpq : p' ++ q with
      | nil => exact absurd (List.append_eq_nil.mp hpq).2 hq
      | cons a rest =>
          show x.removeAt (i :: (p' ++ q)) = x.withChild i (modify · p' (fun n => n.removeAt q))
          rw [hpq]
          show x.withChild i (removeAt · (a :: rest)) = x.withChild i (modify · p' (fun n => n.removeAt q))
          cases x with
          | text s => rfl
          | elem nm cs =>
              show XNode.elem nm (modifyIdx (removeAt · (a :: rest)) cs i) =
                XNode.elem nm (modifyIdx (modify · p' (fun n => n.removeAt q)) cs i)
              congr 1
              have : (fun n => XNode.removeAt n (a :: rest)) =
                  (fun n => XNode.modify n p' (fun m => m.removeAt q)) := by
                funext n
                rw [← hpq]
                exact ih n
              rw [this]

theorem XNode.get?_append (x : XNode) (p q : XPath) :
    x.get? (p ++ q) = (x.get? p).bind (fun n => n.get? q) := by
  induction p generalizing x with
  | nil => rfl
  | cons i p' ih =>
      show (x.children[i]?).bind (get? · (p' ++ q)) =
        ((x.children[i]?).bind (get? · p')).bind (fun n => n.get? q)
      cases x.children[i]? with
      | none => rfl
      | some c => exact ih c

/-- C10: when an article is selected and it has no following `ARTICLE`
sibling, `catner_sel_next_article` returns failure (recording
`LIBCATNER_ERR_NO_SUCH_NODE`) and still mutates the cursor state: the
article cursor becomes none and the feature, variant, image and unit
cursors are all cleared — the failing cursor-advance is not
state-preserving. -/
theorem tC10 (s : CatnerState) (p : XPath)
    (hsel : s.currArticle = some p)
    (hname : (s.doc.get? p).map XNode.name = some "ARTICLE")
    (hnext : nextPath s.doc p = none) :
    catner_sel_next_article s =
      (-1, { s with currArticle := none, currFeature := none, currVariant := none,
                    currImage := none, currUnit := none,
                    error := LIBCATNER_ERR_NO_SUCH_NODE }) := by
  unfold catner_sel_next_article
  rw [hsel]
  simp [hnext]

/-- Witness for C10: the concrete single-article catalog, with that article
selected, exercises `tC10` end to end. -/
theorem tC10w :
    (catner_sel_first_article exArticle).2.currArticle = some [1, 0] ∧
    ((catner_sel_first_article exArticle).2.doc.get? [1, 0]).map XNode.name = some "ARTICLE" ∧
    nextPath (catner_sel_first_article exArticle).2.doc [1, 0] = none ∧
    catner_sel_next_article (catner_sel_first_article exArticle).2 =
      (-1, { (catner_sel_first_article exArticle).2 with
               currArticle := none, currFeature := none, currVariant := none,
               currImage := none, currUnit := none,
               error := LIBCATNER_ERR_NO_SUCH_NODE }) :=
  ⟨by decide, by decide, by decide,
   tC10 (catner_sel_first_article exArticle).2 [1, 0] (by decide) (by decide) (by decide)⟩

theorem elem_of_find_child_isSome {a : XNode} {nm : String} {v : Option String}
    (h : (libcatner_find_child a nm v).isSome = true) : ∃ n cs, a = XNode.elem n cs := by
  cases a with
  | text s => simp [libcatner_find_child, XNode.children, findWithIdx] at h
  | elem n cs => exact ⟨n, cs, rfl⟩

theorem artPred_mkArticleNode (aid : String) (title descr : Option String) :
    (libcatner_find_child (mkArticleNode aid title descr) "SUPPLIER_AID" (some aid)).isSome = true := by
  unfold mkArticleNode libcatner_find_child
  rw [show (XNode.elem "ARTICLE" [XNode.elem "SUPPLIER_AID" [XNode.text aid], _]).children =
    [XNode.elem "SUPPLIER_AID" [XNode.text aid],
     XNode.elem "ARTICLE_DETAILS" _] from rfl]
  rw [findWithIdx_cons, if_pos (matchNV_text_child_self "SUPPLIER_AID" aid)]
  rfl

/-- C5: for any state whose catalog node is present and any non-empty AID
not yet in the catalog, `catner_add_article` succeeds and a
`libcatner_get_article`-based lookup returns exactly the created article
node; a second `catner_add_article` with the same AID fails with the
distinguishable ALREADY_EXISTS error, leaves the document untouched, and
the lookup still returns the first article's node — title and description
included. -/
theorem tC5 (s : CatnerState) (aid : String) (title descr title2 descr2 : Option String)
    (anm : String) (acs : List XNode)
    (hdoc : s.doc.get? articlesPath = some (.elem anm acs))
    (haid : aid.length ≠ 0)
    (hnew : libcatner_get_article s.articlesNode aid = none) :
    (catner_add_article s aid title descr).1 = 0 ∧
    articleNodeOf (catner_add_article s aid title descr).2 aid =
      some (mkArticleNode aid title descr) ∧
    (catner_add_article (catner_add_article s aid title descr).2 aid title2 descr2).1 = -1 ∧
    (catner_add_article (catner_add_article s aid title descr).2 aid title2 descr2).2.error =
      LIBCATNER_ERR_ALREADY_EXISTS ∧
    (catner_add_article (catner_add_article s aid title descr).2 aid title2 descr2).2.doc =
      (catner_add_article s aid title descr).2.doc ∧
    articleNodeOf
      (catner_add_article (catner_add_article s aid title descr).2 aid title2 descr2).2 aid =
      some (mkArticleNode aid title descr) := by
  have hlen : (aid.length == 0) = false := by
    exact beq_eq_false_iff_ne.mpr haid
  have hartsnode : s.articlesNode = .elem anm acs := by
    unfold CatnerState.articlesNode
    rw [hdoc]
    rfl
  have hfind0 : findWithIdx
      (fun a => (libcatner_find_child a "SUPPLIER_AID" (some aid)).isSome) acs = none := by
    have := hnew
    unfold libcatner_get_article at this
    rw [hartsnode] at this
    exact this
  -- first call
  have hstep1 : catner_add_article s aid title descr =
      (0, { s with doc := (s.doc.modify articlesPath
              (·.pushChild (mkArticleNode aid title descr))) }) := by
    unfold catner_add_article
    rw [hlen, hnew]
    rfl
  set art := mkArticleNode aid title descr with hart
  set s1 := { s with doc := (s.doc.modify articlesPath (·.pushChild art)) } with hs1
  have harts1 : s1.articlesNode = .elem anm (acs ++ [art]) := by
    unfold CatnerState.articlesNode
    show (((s.doc.modify articlesPath (·.pushChild art))).get? articlesPath).getD _ = _
    rw [XNode.get?_modify_self, hdoc]
    rfl
  have hfind1 : libcatner_get_article s1.articlesNode aid = some (acs.length, art) := by
    unfold libcatner_get_article
    rw [harts1]
    show findWithIdx _ (acs ++ [art]) = _
    exact findWithIdx_push hfind0 (artPred_mkArticleNode aid title descr)
  have hnode1 : articleNodeOf s1 aid = some art := by
    unfold articleNodeOf
    rw [hfind1]
    rfl
  -- second call
  have hstep2 : catner_add_article s1 aid title2 descr2 =
      (-1, { s1 with error := LIBCATNER_ERR_ALREADY_EXISTS }) := by
    unfold catner_add_article
    rw [hlen, hfind1]
    rfl
  have hs2show : (catner_add_article (catner_add_article s aid title descr).2 aid title2 descr2) =
      (-1, { s1 with error := LIBCATNER_ERR_ALREADY_EXISTS }) := by
    rw [hstep1]
    exact hstep2
  refine ⟨by rw [hstep1], ?_, by rw [hs2show], by rw [hs2show], by rw [hs2show, hstep1], ?_⟩
  · rw [hstep1]; exact hnode1
  · rw [hs2show]
    show articleNodeOf { s1 with error := LIBCATNER_ERR_ALREADY_EXISTS } aid = some art
    unfold articleNodeOf
    have heq : ({ s1 with error := LIBCATNER_ERR_ALREADY_EXISTS } : CatnerState).articlesNode
        = s1.articlesNode := rfl
    rw [heq, hfind1]
    rfl

theorem findWithIdx_modifyIdx_of_false {p : XNode → Bool} {g : XNode → XNode}
    {l : List XNode} {i : Nat} {x : XNode} (hx : l[i]? = some x)
    (hpx : p x = false) (hpgx : p (g x) = false) :
    findWithIdx p (modifyIdx g l i) = findWithIdx p l := by
  induction l generalizing i with
  | nil => simp [modifyIdx]
  | cons c cs ih =>
      cases i with
      | zero =>
          rw [List.getElem?_cons_zero] at hx
          injection hx with hx
          rw [← hx] at hpx hpgx
          rw [show modifyIdx g (c :: cs) 0 = g c :: cs from rfl,
            findWithIdx_cons, findWithIdx_cons, hpx, hpgx]
          simp
      | succ k =>
          rw [List.getElem?_cons_succ] at hx
          rw [show modifyIdx g (c :: cs) (k + 1) = c :: modifyIdx g cs k from rfl,
            findWithIdx_cons, findWithIdx_cons, ih hx]

theorem childContent_mkFeatureNode_absent (fid ord : String) (name : Option String) (fld : String)
    (h1 : fld ≠ "FID") (h2 : fld ≠ "FORDER") (h3 : fld ≠ "FNAME") :
    childContent (mkFeatureNode fid ord name none none none) fld = none := by
  cases name with
  | none =>
      unfold childContent mkFeatureNode libcatner_find_child
      simp [findWithIdx, matchNV, XNode.name, XNode.children, Ne.symm h1, Ne.symm h2]
  | some v =>
      unfold childContent mkFeatureNode libcatner_find_child
      simp [findWithIdx, matchNV, XNode.name, XNode.children,
        Ne.symm h1, Ne.symm h2, Ne.symm h3]

theorem num_features_eq_featList_length (article : XNode) :
    libcatner_num_features article = (featListOf article).length := by
  unfold libcatner_num_features featListOf
  cases h : libcatner_find_child article "ARTICLE_FEATURES" none with
  | none => rfl
  | some r =>
      obtain ⟨fi, features⟩ := r
      have hp : (fun c => matchNV "FEATURE" none c) = (fun c : XNode => c.name == "FEATURE") :=
        funext (fun c => matchNV_none "FEATURE" c)
      show List.countP (fun c => matchNV "FEATURE" none c) features.children =
        (List.filter (fun c => c.name == "FEATURE") features.children).length
      rw [hp, List.countP_eq_length_filter]

theorem matchNV_false_of_name_ne {nm : String} {v : Option String} {c : XNode}
    (h : c.name ≠ nm) : matchNV nm v c = false := by
  unfold matchNV
  rw [beq_eq_false_iff_ne.mpr h]
  rfl

theorem name_of_matchNV_none {nm : String} {c : XNode}
    (h : matchNV nm none c = true) : c.name = nm := by
  rw [matchNV_none] at h
  exact beq_iff_eq.mp h


theorem addFeatureArticle_find_aid {an : String} {cs : List XNode} (fid : String)
    (name descr unit value : Option String) (v : String) :
    findWithIdx (matchNV "SUPPLIER_AID" (some v))
      (addFeatureArticle (XNode.elem an cs) fid name descr unit value).children =
    findWithIdx (matchNV "SUPPLIER_AID" (some v)) cs := by
  unfold addFeatureArticle libcatner_get_child_add
  cases hcont : libcatner_find_child (XNode.elem an cs) "ARTICLE_FEATURES" none with
  | none =>
      have hcs : findWithIdx (matchNV "ARTICLE_FEATURES" none) cs = none := hcont
      show findWithIdx _
        (XNode.children (XNode.elem an (modifyIdx _
          (cs ++ [libcatner_add_child "ARTICLE_FEATURES" none]) (XNode.elem an cs).children.length))) = _
      rw [show (XNode.elem an cs).children.length = cs.length from rfl]
      rw [show (cs ++ [libcatner_add_child "ARTICLE_FEATURES" none]) = cs ++ [XNode.elem "ARTICLE_FEATURES" []] from rfl]
      rw [modifyIdx_append_length]
      show findWithIdx _ (cs ++ [XNode.elem "ARTICLE_FEATURES" [mkFeatureNode fid _ name descr unit value]]) = _
      cases hfv : findWithIdx (matchNV "SUPPLIER_AID" (some v)) cs with
      | none =>
          rw [findWithIdx_append_none hfv]
          rw [findWithIdx_cons]
          rw [matchNV_false_of_name_ne (by simp [XNode.name])]
          rfl
      | some r => exact findWithIdx_append_left _ hfv
  | some r =>
      obtain ⟨fi, features⟩ := r
      have hx := findWithIdx_eq_some hcont
      have hname : features.name = "ARTICLE_FEATURES" := name_of_matchNV_none hx.2
      show findWithIdx _ (XNode.children (XNode.elem an (modifyIdx _ cs fi))) = _
      show findWithIdx _ (modifyIdx _ cs fi) = _
      refine findWithIdx_modifyIdx_of_false hx.1 ?_ ?_
      · exact matchNV_false_of_name_ne (by rw [hname]; decide)
      · exact matchNV_false_of_name_ne (by rw [XNode.name_pushChild, hname]; decide)

theorem featPred_mkFeatureNode (fid ord : String) (name descr unit value : Option String) :
    ((mkFeatureNode fid ord name descr unit value).name == "FEATURE" &&
      (libcatner_find_child (mkFeatureNode fid ord name descr unit value) "FID" (some fid)).isSome)
      = true := by
  rw [Bool.and_eq_true]
  refine ⟨rfl, ?_⟩
  show (findWithIdx _ (XNode.elem "FID" [XNode.text fid] :: _)).isSome = true
  rw [findWithIdx_cons, if_pos (matchNV_text_child_self "FID" fid)]
  rfl

theorem addFeatureArticle_get_feature {an : String} {cs : List XNode} {fid : String}
    (name descr unit value : Option String)
    (hfeat : libcatner_get_feature (XNode.elem an cs) fid = none) :
    ∃ fi j, libcatner_get_feature (addFeatureArticle (XNode.elem an cs) fid name descr unit value) fid =
      some (fi, j, mkFeatureNode fid
        (toString (libcatner_num_features (XNode.elem an cs) + 1)) name descr unit value) := by
  have hpred := featPred_mkFeatureNode fid
    (toString (libcatner_num_features (XNode.elem an cs) + 1)) name descr unit value
  unfold addFeatureArticle libcatner_get_child_add
  unfold libcatner_get_feature at hfeat ⊢
  cases hcont : libcatner_find_child (XNode.elem an cs) "ARTICLE_FEATURES" none with
  | none =>
      have hcs : findWithIdx (matchNV "ARTICLE_FEATURES" none) cs = none := hcont
      refine ⟨cs.length, 0, ?_⟩
      rw [show (XNode.elem an cs).children.length = cs.length from rfl]
      rw [show ((XNode.elem an cs).pushChild (libcatner_add_child "ARTICLE_FEATURES" none)) =
        XNode.elem an (cs ++ [XNode.elem "ARTICLE_FEATURES" []]) from rfl]
      rw [XNode.children_withChild, modifyIdx_append_length]
      rw [show ((XNode.elem "ARTICLE_FEATURES" []).pushChild (mkFeatureNode fid
        (toString (libcatner_num_features (XNode.elem an cs) + 1)) name descr unit value)) =
        XNode.elem "ARTICLE_FEATURES" [mkFeatureNode fid
          (toString (libcatner_num_features (XNode.elem an cs) + 1)) name descr unit value] from rfl]
      have hfc : libcatner_find_child
          (XNode.elem an (cs ++ [XNode.elem "ARTICLE_FEATURES"
            [mkFeatureNode fid (toString (libcatner_num_features (XNode.elem an cs) + 1))
              name descr unit value]])) "ARTICLE_FEATURES" none =
          some (cs.length, XNode.elem "ARTICLE_FEATURES"
            [mkFeatureNode fid (toString (libcatner_num_features (XNode.elem an cs) + 1))
              name descr unit value]) := by
        show findWithIdx _ (cs ++ [_]) = _
        exact findWithIdx_push hcs (by rw [matchNV_none]; rfl)
      rw [hfc]
      show Option.map _ (findWithIdx _ [mkFeatureNode fid _ name descr unit value]) = _
      rw [show ∀ x : XNode, findWithIdx
          (fun c => c.name == "FEATURE" && (libcatner_find_child c "FID" (some fid)).isSome) [x] =
          if (x.name == "FEATURE" && (libcatner_find_child x "FID" (some fid)).isSome)
          then some (0, x) else none from fun x => rfl]
      rw [if_pos hpred]
      rfl
  | some r =>
      obtain ⟨fi, features⟩ := r
      have hx := findWithIdx_eq_some hcont
      have hname : features.name = "ARTICLE_FEATURES" := name_of_matchNV_none hx.2
      rw [hcont] at hfeat
      have hfeat' : Option.map (fun r : Nat × XNode => (fi, r.1, r.2))
          (findWithIdx (fun c => c.name == "FEATURE" &&
            (libcatner_find_child c "FID" (some fid)).isSome) features.children) = none := hfeat
      have hinner : findWithIdx
          (fun c => c.name == "FEATURE" && (libcatner_find_child c "FID" (some fid)).isSome)
          features.children = none := by
        cases hin : findWithIdx (fun c => c.name == "FEATURE" &&
            (libcatner_find_child c "FID" (some fid)).isSome) features.children with
        | none => rfl
        | some rr => rw [hin] at hfeat'; simp at hfeat'
      obtain ⟨fn, fcs, rfl⟩ : ∃ n fcs, features = XNode.elem n fcs := by
        cases features with
        | text s => simp [XNode.name] at hname
        | elem n fcs => exact ⟨n, fcs, rfl⟩
      refine ⟨fi, fcs.length, ?_⟩
      have hfc : libcatner_find_child ((XNode.elem an cs).withChild fi
          (·.pushChild (mkFeatureNode fid (toString (libcatner_num_features (XNode.elem an cs) + 1))
            name descr unit value))) "ARTICLE_FEATURES" none =
          some (fi, XNode.elem fn (fcs ++ [mkFeatureNode fid
            (toString (libcatner_num_features (XNode.elem an cs) + 1)) name descr unit value])) := by
        show findWithIdx _ (modifyIdx _ cs fi) = _
        rw [findWithIdx_modifyIdx_congr
          (fun x => by rw [matchNV_none, matchNV_none, XNode.name_pushChild]) cs fi]
        rw [show libcatner_find_child (XNode.elem an cs) "ARTICLE_FEATURES" none =
          findWithIdx (matchNV "ARTICLE_FEATURES" none) cs from rfl] at hcont
        rw [hcont]
        simp
        rfl
      rw [hfc]
      have hinner' : findWithIdx
          (fun c => c.name == "FEATURE" && (libcatner_find_child c "FID" (some fid)).isSome)
          fcs = none := hinner
      show Option.map _ (findWithIdx _ (fcs ++ [_])) = _
      rw [findWithIdx_push hinner' hpred]
      rfl

/-- C7 (corrected): a successful `catner_add_feature` with the description
argument omitted creates a feature with NO `FDESCR` child at all — the
description does not default to the name — and with the unit omitted it
creates NO `FUNIT` child — the unit does not default to the fixed "00".
The created node is exactly `mkFeatureNode` with the omitted fields
absent. -/
theorem tC7 (s : CatnerState) (aid fid : String) (name : Option String)
    (anm an : String) (acs cs : List XNode) (i : Nat)
    (hdoc : s.doc.get? articlesPath = some (.elem anm acs))
    (hart : libcatner_get_article s.articlesNode aid = some (i, .elem an cs))
    (hfeat : libcatner_get_feature (.elem an cs) fid = none) :
    (catner_add_feature s (some aid) fid name none none none).1 = 0 ∧
    featureNodeOf (catner_add_feature s (some aid) fid name none none none).2 aid fid =
      some (mkFeatureNode fid (toString (libcatner_num_features (XNode.elem an cs) + 1))
        name none none none) ∧
    childContent (mkFeatureNode fid (toString (libcatner_num_features (XNode.elem an cs) + 1))
      name none none none) "FDESCR" = none ∧
    childContent (mkFeatureNode fid (toString (libcatner_num_features (XNode.elem an cs) + 1))
      name none none none) "FUNIT" = none := by
  have hartsnode : s.articlesNode = .elem anm acs := by
    unfold CatnerState.articlesNode
    rw [hdoc]
    rfl
  have hartf : findWithIdx (fun a => (libcatner_find_child a "SUPPLIER_AID" (some aid)).isSome)
      acs = some (i, .elem an cs) := by
    have := hart
    unfold libcatner_get_article at this
    rw [hartsnode] at this
    exact this
  have hres : s.resolveArticle (some aid) = some (articlesPath ++ [i], XNode.elem an cs) := by
    unfold CatnerState.resolveArticle
    simp only [hart, Option.map_some']
  have hstep : catner_add_feature s (some aid) fid name none none none =
      (0, { s with doc := (s.doc.modify (articlesPath ++ [i])
              (fun _ => addFeatureArticle (XNode.elem an cs) fid name none none none)) }) := by
    unfold catner_add_feature
    simp only [hres, hfeat]
  set X := addFeatureArticle (XNode.elem an cs) fid name none none none with hX
  set s1 := { s with doc := (s.doc.modify (articlesPath ++ [i]) (fun _ => X)) } with hs1
  have harts1 : s1.articlesNode = .elem anm (modifyIdx (fun _ => X) acs i) := by
    unfold CatnerState.articlesNode
    show ((s.doc.modify (articlesPath ++ [i]) (fun _ => X)).get? articlesPath).getD _ = _
    rw [XNode.modify_append, XNode.get?_modify_self, hdoc]
    rfl
  have hpX : (fun a => (libcatner_find_child a "SUPPLIER_AID" (some aid)).isSome) X = true := by
    show (libcatner_find_child X "SUPPLIER_AID" (some aid)).isSome = true
    show (findWithIdx (matchNV "SUPPLIER_AID" (some aid)) X.children).isSome = true
    rw [hX]
    rw [addFeatureArticle_find_aid fid name none none none aid]
    have := (findWithIdx_eq_some hartf).2
    exact this
  have hart1 : libcatner_get_article s1.articlesNode aid = some (i, X) := by
    unfold libcatner_get_article
    rw [harts1]
    show findWithIdx _ (modifyIdx (fun _ => X) acs i) = _
    exact findWithIdx_set_of_pred hartf hpX
  obtain ⟨fi, j, hgf⟩ := addFeatureArticle_get_feature name none none none hfeat
  refine ⟨by rw [hstep], ?_, ?_, ?_⟩
  · rw [hstep]
    show featureNodeOf s1 aid fid = _
    unfold featureNodeOf articleNodeOf
    rw [hart1]
    show (libcatner_get_feature X fid).map (fun r => r.2.2) = _
    rw [← hX] at hgf
    rw [hgf]
    rfl
  · exact childContent_mkFeatureNode_absent _ _ _ _ (by decide) (by decide) (by decide)
  · exact childContent_mkFeatureNode_absent _ _ _ _ (by decide) (by decide) (by decide)

theorem name_addUnitDetails (d : XNode) (c f : String) (m : Bool) :
    (addUnitDetails d c f m).name = d.name := by
  unfold addUnitDetails
  cases hm : (libcatner_find_child d "ORDER_UNIT" none).map (fun r => r.1) with
  | none =>
      cases ha : (findWithIdx (fun ch => ch.name == "ALTERNATIVE_UNIT" &&
          (libcatner_find_child ch "ALTERNATIVE_UNIT_CODE" (some c)).isSome)
          d.children).map (fun r => r.1) with
      | none => simp [hm, ha, XNode.name_pushChild]
      | some ai => simp [hm, ha, XNode.name_withChild, XNode.name_pushChild]
  | some mi =>
      cases ha : (findWithIdx (fun ch => ch.name == "ALTERNATIVE_UNIT" &&
          (libcatner_find_child ch "ALTERNATIVE_UNIT_CODE" (some c)).isSome)
          d.children).map (fun r => r.1) with
      | none =>
          cases m with
          | true => simp [hm, ha, XNode.name_pushChild, XNode.name_withChild]
          | false => simp [hm, ha, XNode.name_pushChild]
      | some ai =>
          cases m with
          | true => simp [hm, ha, XNode.name_withChild]
          | false => simp [hm, ha, XNode.name_withChild]

theorem addUnitArticle_find_aid {an : String} {cs : List XNode} (c f : String) (m : Bool)
    (v : String) :
    findWithIdx (matchNV "SUPPLIER_AID" (some v))
      (addUnitArticle (XNode.elem an cs) c f m).children =
    findWithIdx (matchNV "SUPPLIER_AID" (some v)) cs := by
  unfold addUnitArticle libcatner_get_child_add
  cases hcont : libcatner_find_child (XNode.elem an cs) "ARTICLE_ORDER_DETAILS" none with
  | none =>
      have hcs : findWithIdx (matchNV "ARTICLE_ORDER_DETAILS" none) cs = none := hcont
      show findWithIdx _
        (XNode.children (XNode.elem an (modifyIdx _
          (cs ++ [libcatner_add_child "ARTICLE_ORDER_DETAILS" none])
          (XNode.elem an cs).children.length))) = _
      rw [show (XNode.elem an cs).children.length = cs.length from rfl]
      rw [show (cs ++ [libcatner_add_child "ARTICLE_ORDER_DETAILS" none]) =
        cs ++ [XNode.elem "ARTICLE_ORDER_DETAILS" []] from rfl]
      rw [modifyIdx_append_length]
      show findWithIdx _ (cs ++ [addUnitDetails (XNode.elem "ARTICLE_ORDER_DETAILS" []) c f m]) = _
      cases hfv : findWithIdx (matchNV "SUPPLIER_AID" (some v)) cs with
      | none =>
          rw [findWithIdx_append_none hfv]
          rw [findWithIdx_cons]
          rw [matchNV_false_of_name_ne
            (by rw [name_addUnitDetails]; decide)]
          rfl
      | some r => exact findWithIdx_append_left _ hfv
  | some r =>
      obtain ⟨di, details⟩ := r
      have hx := findWithIdx_eq_some hcont
      have hnm : details.name = "ARTICLE_ORDER_DETAILS" := name_of_matchNV_none hx.2
      show findWithIdx _ (XNode.children (XNode.elem an (modifyIdx _ cs di))) = _
      show findWithIdx _ (modifyIdx _ cs di) = _
      refine findWithIdx_modifyIdx_of_false hx.1 ?_ ?_
      · exact matchNV_false_of_name_ne (by rw [hnm]; decide)
      · exact matchNV_false_of_name_ne (by rw [name_addUnitDetails, hnm]; decide)

theorem addUnitArticle_units_none {an : String} {cs : List XNode} (c f : String) (m : Bool)
    (hno : libcatner_find_child (XNode.elem an cs) "ARTICLE_ORDER_DETAILS" none = none) :
    addUnitArticle (XNode.elem an cs) c f m =
      XNode.elem an (cs ++ [addUnitDetails (XNode.elem "ARTICLE_ORDER_DETAILS" []) c f m]) := by
  unfold addUnitArticle libcatner_get_child_add
  rw [hno]
  show (XNode.elem an (cs ++ [XNode.elem "ARTICLE_ORDER_DETAILS" []])).withChild
    (XNode.elem an cs).children.length (addUnitDetails · c f m) = _
  rw [show (XNode.elem an cs).children.length = cs.length from rfl,
    XNode.children_withChild, modifyIdx_append_length]

theorem addUnitArticle_units_some {an : String} {cs : List XNode} {di : Nat} {details : XNode}
    (c f : String) (m : Bool)
    (hsome : libcatner_find_child (XNode.elem an cs) "ARTICLE_ORDER_DETAILS" none =
      some (di, details)) :
    addUnitArticle (XNode.elem an cs) c f m =
      XNode.elem an (modifyIdx (addUnitDetails · c f m) cs di) := by
  unfold addUnitArticle libcatner_get_child_add
  rw [hsome]
  rfl

theorem find_units_append {cs : List XNode} {u : XNode}
    (hno : findWithIdx (matchNV "ARTICLE_ORDER_DETAILS" none) cs = none)
    (hu : u.name = "ARTICLE_ORDER_DETAILS") :
    findWithIdx (matchNV "ARTICLE_ORDER_DETAILS" none) (cs ++ [u]) = some (cs.length, u) :=
  findWithIdx_push hno (by rw [matchNV_none, hu]; rfl)

theorem content_setContent {n : XNode} (v : String) (h : n.name ≠ "text") :
    (xmlNodeSetContent n v).content = v := by
  cases n with
  | text s => simp [XNode.name] at h
  | elem nm cs => exact content_single nm v

theorem name_altUpdate (alt : XNode) (f : String) :
    (match libcatner_find_child alt "ALTERNATIVE_UNIT_FACTOR" none with
      | none => alt
      | some r => alt.withChild r.1 (xmlNodeSetContent · f)).name = alt.name := by
  cases libcatner_find_child alt "ALTERNATIVE_UNIT_FACTOR" none with
  | none => rfl
  | some r => exact XNode.name_withChild alt r.1 _

theorem find_child_elem (nm : String) (cs : List XNode) (name : String) (v : Option String) :
    libcatner_find_child (XNode.elem nm cs) name v = findWithIdx (matchNV name v) cs := rfl

theorem addUnitDetails_main_of_none (dn : String) (dcs : List XNode) (c f : String) (m : Bool)
    (hno : libcatner_find_child (XNode.elem dn dcs) "ORDER_UNIT" none = none) :
    childContent (addUnitDetails (XNode.elem dn dcs) c f m) "ORDER_UNIT" = some c := by
  have hno' : findWithIdx (matchNV "ORDER_UNIT" none) dcs = none := hno
  unfold addUnitDetails
  rw [hno]
  cases halt : findWithIdx (fun ch => ch.name == "ALTERNATIVE_UNIT" &&
      (libcatner_find_child ch "ALTERNATIVE_UNIT_CODE" (some c)).isSome)
      (XNode.elem dn dcs).children with
  | none =>
      show childContent (XNode.elem dn
        ((dcs ++ [XNode.elem "ORDER_UNIT" [XNode.text c]]) ++
          [XNode.elem "ALTERNATIVE_UNIT" [XNode.elem "ALTERNATIVE_UNIT_CODE" [XNode.text c],
            XNode.elem "ALTERNATIVE_UNIT_FACTOR" [XNode.text f]]])) "ORDER_UNIT" = some c
      show (libcatner_find_child (XNode.elem dn
        ((dcs ++ [XNode.elem "ORDER_UNIT" [XNode.text c]]) ++ [_])) "ORDER_UNIT" none).map
          (fun r => r.2.content) = some c
      rw [find_child_elem]
      have hfo : findWithIdx (matchNV "ORDER_UNIT" none)
          (dcs ++ [XNode.elem "ORDER_UNIT" [XNode.text c]]) =
          some (dcs.length, XNode.elem "ORDER_UNIT" [XNode.text c]) :=
        findWithIdx_push hno' (by rw [matchNV_none]; rfl)
      rw [findWithIdx_append_left _ hfo]
      simp [content_single]
  | some r =>
      obtain ⟨ai, alt⟩ := r
      have hx := findWithIdx_eq_some halt
      have haname : alt.name = "ALTERNATIVE_UNIT" := by
        have h2 := hx.2
        rw [Bool.and_eq_true] at h2
        exact beq_iff_eq.mp h2.1
      have hailt : ai < dcs.length := (List.getElem?_eq_some.mp hx.1).1
      show childContent ((XNode.elem dn (dcs ++ [XNode.elem "ORDER_UNIT" [XNode.text c]])).withChild
        ai (fun alt => match libcatner_find_child alt "ALTERNATIVE_UNIT_FACTOR" none with
          | none => alt
          | some r => alt.withChild r.1 (xmlNodeSetContent · f))) "ORDER_UNIT" = some c
      rw [XNode.children_withChild]
      rw [modifyIdx_append_left _ _ hailt]
      show (libcatner_find_child (XNode.elem dn _) "ORDER_UNIT" none).map
        (fun r => r.2.content) = some c
      rw [find_child_elem]
      have hget0 : dcs[ai]? = some alt := hx.1
      have hfm : findWithIdx (matchNV "ORDER_UNIT" none)
          (modifyIdx (fun alt => match libcatner_find_child alt "ALTERNATIVE_UNIT_FACTOR" none with
            | none => alt
            | some r => alt.withChild r.1 (xmlNodeSetContent · f)) dcs ai) = none := by
        rw [findWithIdx_modifyIdx_of_false hget0
          (matchNV_false_of_name_ne (by rw [haname]; decide))
          (matchNV_false_of_name_ne (by rw [name_altUpdate, haname]; decide))]
        exact hno'
      have hfo : findWithIdx (matchNV "ORDER_UNIT" none)
          ((modifyIdx (fun alt => match libcatner_find_child alt "ALTERNATIVE_UNIT_FACTOR" none with
            | none => alt
            | some r => alt.withChild r.1 (xmlNodeSetContent · f)) dcs ai) ++
            [XNode.elem "ORDER_UNIT" [XNode.text c]]) =
          some ((modifyIdx (fun alt => match libcatner_find_child alt "ALTERNATIVE_UNIT_FACTOR" none with
            | none => alt
            | some r => alt.withChild r.1 (xmlNodeSetContent · f)) dcs ai).length,
            XNode.elem "ORDER_UNIT" [XNode.text c]) :=
        findWithIdx_push hfm (by rw [matchNV_none]; rfl)
      rw [hfo]
      simp [content_single]

theorem addUnitDetails_main_overwrite (dn : String) (dcs : List XNode) (c f : String)
    {mi : Nat} {mnode : XNode}
    (hm : libcatner_find_child (XNode.elem dn dcs) "ORDER_UNIT" none = some (mi, mnode)) :
    childContent (addUnitDetails (XNode.elem dn dcs) c f true) "ORDER_UNIT" = some c := by
  have hxm := findWithIdx_eq_some hm
  have hmname : mnode.name = "ORDER_UNIT" := name_of_matchNV_none hxm.2
  have hmtext : mnode.name ≠ "text" := by rw [hmname]; decide
  unfold addUnitDetails
  rw [hm]
  have hsetfind : findWithIdx (matchNV "ORDER_UNIT" none)
      (modifyIdx (xmlNodeSetContent · c) dcs mi) =
      some (mi, xmlNodeSetContent mnode c) := by
    rw [findWithIdx_modifyIdx_congr
      (fun x => by rw [matchNV_none, matchNV_none, name_xmlNodeSetContent]) dcs mi]
    rw [find_child_elem] at hm
    rw [hm]
    simp
  cases halt : findWithIdx (fun ch => ch.name == "ALTERNATIVE_UNIT" &&
      (libcatner_find_child ch "ALTERNATIVE_UNIT_CODE" (some c)).isSome)
      (XNode.elem dn dcs).children with
  | none =>
      show childContent (XNode.elem dn
        ((modifyIdx (xmlNodeSetContent · c) dcs mi) ++
          [XNode.elem "ALTERNATIVE_UNIT" [XNode.elem "ALTERNATIVE_UNIT_CODE" [XNode.text c],
            XNode.elem "ALTERNATIVE_UNIT_FACTOR" [XNode.text f]]])) "ORDER_UNIT" = some c
      show (libcatner_find_child (XNode.elem dn _) "ORDER_UNIT" none).map
        (fun r => r.2.content) = some c
      rw [find_child_elem]
      rw [findWithIdx_append_left _ hsetfind]
      simp [content_setContent c hmtext]
  | some r =>
      obtain ⟨ai, alt⟩ := r
      have hxa := findWithIdx_eq_some halt
      have haname : alt.name = "ALTERNATIVE_UNIT" := by
        have h2 := hxa.2
        rw [Bool.and_eq_true] at h2
        exact beq_iff_eq.mp h2.1
      have hne : ai ≠ mi := by
        intro he
        have h1 : (XNode.elem dn dcs).children[ai]? = some alt := hxa.1
        have h2 : (XNode.elem dn dcs).children[mi]? = some mnode := hxm.1
        rw [he, h2] at h1
        injection h1 with h1
        rw [h1, haname] at hmname
        exact absurd hmname (by decide)
      show childContent ((XNode.elem dn (modifyIdx (xmlNodeSetContent · c) dcs mi)).withChild ai
        (fun alt => match libcatner_find_child alt "ALTERNATIVE_UNIT_FACTOR" none with
          | none => alt
          | some r => alt.withChild r.1 (xmlNodeSetContent · f))) "ORDER_UNIT" = some c
      rw [XNode.children_withChild]
      show (libcatner_find_child (XNode.elem dn _) "ORDER_UNIT" none).map
        (fun r => r.2.content) = some c
      rw [find_child_elem]
      have hget : (modifyIdx (xmlNodeSetContent · c) dcs mi)[ai]? = some alt := by
        rw [getElem?_modifyIdx, if_neg hne]
        exact hxa.1
      rw [findWithIdx_modifyIdx_of_false hget
        (matchNV_false_of_name_ne (by rw [haname]; decide))
        (matchNV_false_of_name_ne (by rw [name_altUpdate, haname]; decide))]
      rw [hsetfind]
      simp [content_setContent c hmtext]

theorem add_unit_step (s : CatnerState) (aid : String) (anm an : String)
    (acs cs : List XNode) (i : Nat) (code factor : Option String) (m : Bool)
    (hdoc : s.doc.get? articlesPath = some (.elem anm acs))
    (hart : libcatner_get_article s.articlesNode aid = some (i, .elem an cs)) :
    catner_add_article_unit s (some aid) code factor m =
      (0, { s with doc := (s.doc.modify (articlesPath ++ [i]) (fun _ =>
        addUnitArticle (XNode.elem an cs) (code.getD LIBCATNER_DEF_UNIT_CODE)
          (factor.getD LIBCATNER_DEF_UNIT_FACTOR) m)) }) ∧
    (catner_add_article_unit s (some aid) code factor m).2.doc.get? articlesPath =
      some (.elem anm (modifyIdx (fun _ =>
        addUnitArticle (XNode.elem an cs) (code.getD LIBCATNER_DEF_UNIT_CODE)
          (factor.getD LIBCATNER_DEF_UNIT_FACTOR) m) acs i)) ∧
    libcatner_get_article
      (catner_add_article_unit s (some aid) code factor m).2.articlesNode aid =
      some (i, addUnitArticle (XNode.elem an cs) (code.getD LIBCATNER_DEF_UNIT_CODE)
        (factor.getD LIBCATNER_DEF_UNIT_FACTOR) m) := by
  have hartsnode : s.articlesNode = .elem anm acs := by
    unfold CatnerState.articlesNode
    rw [hdoc]
    rfl
  have hartf : findWithIdx (fun a => (libcatner_find_child a "SUPPLIER_AID" (some aid)).isSome)
      acs = some (i, .elem an cs) := by
    have h := hart
    unfold libcatner_get_article at h
    rw [hartsnode] at h
    exact h
  have hres : s.resolveArticle (some aid) = some (articlesPath ++ [i], XNode.elem an cs) := by
    unfold CatnerState.resolveArticle
    simp only [hart, Option.map_some']
  set X := addUnitArticle (XNode.elem an cs) (code.getD LIBCATNER_DEF_UNIT_CODE)
    (factor.getD LIBCATNER_DEF_UNIT_FACTOR) m with hX
  have hstep : catner_add_article_unit s (some aid) code factor m =
      (0, { s with doc := (s.doc.modify (articlesPath ++ [i]) (fun _ => X)) }) := by
    unfold catner_add_article_unit
    simp only [hres]
  refine ⟨hstep, ?_, ?_⟩
  · rw [hstep]
    show (s.doc.modify (articlesPath ++ [i]) (fun _ => X)).get? articlesPath = _
    rw [XNode.modify_append, XNode.get?_modify_self, hdoc]
    rfl
  · rw [hstep]
    show libcatner_get_article
      ({ s with doc := (s.doc.modify (articlesPath ++ [i]) (fun _ => X))} :
        CatnerState).articlesNode aid = some (i, X)
    have harts1 : ({ s with doc := (s.doc.modify (articlesPath ++ [i]) (fun _ => X))} :
        CatnerState).articlesNode = .elem anm (modifyIdx (fun _ => X) acs i) := by
      unfold CatnerState.articlesNode
      show ((s.doc.modify (articlesPath ++ [i]) (fun _ => X)).get? articlesPath).getD _ = _
      rw [XNode.modify_append, XNode.get?_modify_self, hdoc]
      rfl
    rw [harts1]
    unfold libcatner_get_article
    show findWithIdx _ (modifyIdx (fun _ => X) acs i) = _
    refine findWithIdx_set_of_pred hartf ?_
    show (libcatner_find_child X "SUPPLIER_AID" (some aid)).isSome = true
    show (findWithIdx (matchNV "SUPPLIER_AID" (some aid)) X.children).isSome = true
    rw [hX, addUnitArticle_find_aid]
    exact (findWithIdx_eq_some hartf).2

/-- C2: for any article with no unit block, the sequence
`catner_add_article_unit(aid, "PCE", NULL, 1)`, then `(aid, "PCE", "1", 1)`,
then `(aid, "MTR", "6", 1)` succeeds at every step and leaves exactly the
two alternative units (PCE, "1") and (MTR, "6") and a single main unit
whose value is "MTR"; in general (the two final conjuncts) a missing main
unit is created with the given code regardless of the main flag, and an
existing main unit's value is overwritten with the code when the flag is
set. -/
theorem tC2 (s : CatnerState) (aid : String) (anm an : String)
    (acs cs : List XNode) (i : Nat)
    (hdoc : s.doc.get? articlesPath = some (.elem anm acs))
    (hart : libcatner_get_article s.articlesNode aid = some (i, .elem an cs))
    (hno : libcatner_find_child (XNode.elem an cs) "ARTICLE_ORDER_DETAILS" none = none) :
    ((catner_add_article_unit s (some aid) (some "PCE") none true).1 = 0 ∧
     (catner_add_article_unit
       (catner_add_article_unit s (some aid) (some "PCE") none true).2
       (some aid) (some "PCE") (some "1") true).1 = 0 ∧
     (catner_add_article_unit
       (catner_add_article_unit
         (catner_add_article_unit s (some aid) (some "PCE") none true).2
         (some aid) (some "PCE") (some "1") true).2
       (some aid) (some "MTR") (some "6") true).1 = 0 ∧
     (∃ a3, articleNodeOf
        (catner_add_article_unit
          (catner_add_article_unit
            (catner_add_article_unit s (some aid) (some "PCE") none true).2
            (some aid) (some "PCE") (some "1") true).2
          (some aid) (some "MTR") (some "6") true).2 aid = some a3 ∧
        altUnitsOf a3 = [(some "PCE", some "1"), (some "MTR", some "6")] ∧
        mainUnitOf a3 = some "MTR" ∧
        numMainUnitsOf a3 = 1)) ∧
    (∀ (dn : String) (dcs : List XNode) (c f : String) (m : Bool),
      libcatner_find_child (XNode.elem dn dcs) "ORDER_UNIT" none = none →
      childContent (addUnitDetails (XNode.elem dn dcs) c f m) "ORDER_UNIT" = some c) ∧
    (∀ (dn : String) (dcs : List XNode) (c f : String) (mi : Nat) (mnode : XNode),
      libcatner_find_child (XNode.elem dn dcs) "ORDER_UNIT" none = some (mi, mnode) →
      childContent (addUnitDetails (XNode.elem dn dcs) c f true) "ORDER_UNIT" = some c) := by
  refine ⟨?_, fun dn dcs c f m h => addUnitDetails_main_of_none dn dcs c f m h,
    fun dn dcs c f mi mnode h => addUnitDetails_main_overwrite dn dcs c f h⟩
  have hno' : findWithIdx (matchNV "ARTICLE_ORDER_DETAILS" none) cs = none := hno
  -- the three unit-block values the calls produce
  have hu1 : addUnitDetails (XNode.elem "ARTICLE_ORDER_DETAILS" []) "PCE" "1" true =
      XNode.elem "ARTICLE_ORDER_DETAILS"
        [XNode.elem "ORDER_UNIT" [XNode.text "PCE"],
         XNode.elem "ALTERNATIVE_UNIT" [XNode.elem "ALTERNATIVE_UNIT_CODE" [XNode.text "PCE"],
           XNode.elem "ALTERNATIVE_UNIT_FACTOR" [XNode.text "1"]]] := by decide
  have hu2 : addUnitDetails (XNode.elem "ARTICLE_ORDER_DETAILS"
        [XNode.elem "ORDER_UNIT" [XNode.text "PCE"],
         XNode.elem "ALTERNATIVE_UNIT" [XNode.elem "ALTERNATIVE_UNIT_CODE" [XNode.text "PCE"],
           XNode.elem "ALTERNATIVE_UNIT_FACTOR" [XNode.text "1"]]]) "PCE" "1" true =
      XNode.elem "ARTICLE_ORDER_DETAILS"
        [XNode.elem "ORDER_UNIT" [XNode.text "PCE"],
         XNode.elem "ALTERNATIVE_UNIT" [XNode.elem "ALTERNATIVE_UNIT_CODE" [XNode.text "PCE"],
           XNode.elem "ALTERNATIVE_UNIT_FACTOR" [XNode.text "1"]]] := by decide
  have hu3 : addUnitDetails (XNode.elem "ARTICLE_ORDER_DETAILS"
        [XNode.elem "ORDER_UNIT" [XNode.text "PCE"],
         XNode.elem "ALTERNATIVE_UNIT" [XNode.elem "ALTERNATIVE_UNIT_CODE" [XNode.text "PCE"],
           XNode.elem "ALTERNATIVE_UNIT_FACTOR" [XNode.text "1"]]]) "MTR" "6" true =
      XNode.elem "ARTICLE_ORDER_DETAILS"
        [XNode.elem "ORDER_UNIT" [XNode.text "MTR"],
         XNode.elem "ALTERNATIVE_UNIT" [XNode.elem "ALTERNATIVE_UNIT_CODE" [XNode.text "PCE"],
           XNode.elem "ALTERNATIVE_UNIT_FACTOR" [XNode.text "1"]],
         XNode.elem "ALTERNATIVE_UNIT" [XNode.elem "ALTERNATIVE_UNIT_CODE" [XNode.text "MTR"],
           XNode.elem "ALTERNATIVE_UNIT_FACTOR" [XNode.text "6"]]] := by decide
  -- step 1
  obtain ⟨hstep1, hdoc1, hart1⟩ :=
    add_unit_step s aid anm an acs cs i (some "PCE") none true hdoc hart
  have hX1 : addUnitArticle (XNode.elem an cs) ((some "PCE").getD LIBCATNER_DEF_UNIT_CODE)
      ((none : Option String).getD LIBCATNER_DEF_UNIT_FACTOR) true =
      XNode.elem an (cs ++ [XNode.elem "ARTICLE_ORDER_DETAILS"
        [XNode.elem "ORDER_UNIT" [XNode.text "PCE"],
         XNode.elem "ALTERNATIVE_UNIT" [XNode.elem "ALTERNATIVE_UNIT_CODE" [XNode.text "PCE"],
           XNode.elem "ALTERNATIVE_UNIT_FACTOR" [XNode.text "1"]]]]) := by
    rw [addUnitArticle_units_none _ _ _ hno]
    rw [show (some "PCE").getD LIBCATNER_DEF_UNIT_CODE = "PCE" from rfl,
      show (none : Option String).getD LIBCATNER_DEF_UNIT_FACTOR = "1" from rfl, hu1]
  rw [hX1] at hdoc1 hart1
  -- from here on, work with the concrete unit block
  have hfindu1 : libcatner_find_child (XNode.elem an (cs ++ [XNode.elem "ARTICLE_ORDER_DETAILS"
      [XNode.elem "ORDER_UNIT" [XNode.text "PCE"],
       XNode.elem "ALTERNATIVE_UNIT" [XNode.elem "ALTERNATIVE_UNIT_CODE" [XNode.text "PCE"],
         XNode.elem "ALTERNATIVE_UNIT_FACTOR" [XNode.text "1"]]]]))
      "ARTICLE_ORDER_DETAILS" none =
      some (cs.length, XNode.elem "ARTICLE_ORDER_DETAILS"
        [XNode.elem "ORDER_UNIT" [XNode.text "PCE"],
         XNode.elem "ALTERNATIVE_UNIT" [XNode.elem "ALTERNATIVE_UNIT_CODE" [XNode.text "PCE"],
           XNode.elem "ALTERNATIVE_UNIT_FACTOR" [XNode.text "1"]]]) := by
    rw [find_child_elem]
    exact find_units_append hno' rfl
  -- step 2
  obtain ⟨hstep2, hdoc2, hart2⟩ :=
    add_unit_step (catner_add_article_unit s (some aid) (some "PCE") none true).2 aid anm an
      (modifyIdx (fun _ => XNode.elem an (cs ++ [XNode.elem "ARTICLE_ORDER_DETAILS"
        [XNode.elem "ORDER_UNIT" [XNode.text "PCE"],
         XNode.elem "ALTERNATIVE_UNIT" [XNode.elem "ALTERNATIVE_UNIT_CODE" [XNode.text "PCE"],
           XNode.elem "ALTERNATIVE_UNIT_FACTOR" [XNode.text "1"]]]])) acs i)
      (cs ++ [XNode.elem "ARTICLE_ORDER_DETAILS"
        [XNode.elem "ORDER_UNIT" [XNode.text "PCE"],
         XNode.elem "ALTERNATIVE_UNIT" [XNode.elem "ALTERNATIVE_UNIT_CODE" [XNode.text "PCE"],
           XNode.elem "ALTERNATIVE_UNIT_FACTOR" [XNode.text "1"]]]])
      i (some "PCE") (some "1") true hdoc1 hart1
  have hX2 : addUnitArticle (XNode.elem an (cs ++ [XNode.elem "ARTICLE_ORDER_DETAILS"
      [XNode.elem "ORDER_UNIT" [XNode.text "PCE"],
       XNode.elem "ALTERNATIVE_UNIT" [XNode.elem "ALTERNATIVE_UNIT_CODE" [XNode.text "PCE"],
         XNode.elem "ALTERNATIVE_UNIT_FACTOR" [XNode.text "1"]]]]))
      ((some "PCE").getD LIBCATNER_DEF_UNIT_CODE)
      ((some "1").getD LIBCATNER_DEF_UNIT_FACTOR) true =
      XNode.elem an (cs ++ [XNode.elem "ARTICLE_ORDER_DETAILS"
        [XNode.elem "ORDER_UNIT" [XNode.text "PCE"],
         XNode.elem "ALTERNATIVE_UNIT" [XNode.elem "ALTERNATIVE_UNIT_CODE" [XNode.text "PCE"],
           XNode.elem "ALTERNATIVE_UNIT_FACTOR" [XNode.text "1"]]]]) := by
    rw [addUnitArticle_units_some _ _ _ hfindu1]
    rw [show ((some "PCE").getD LIBCATNER_DEF_UNIT_CODE) = "PCE" from rfl,
      show ((some "1").getD LIBCATNER_DEF_UNIT_FACTOR) = "1" from rfl]
    rw [modifyIdx_append_length, hu2]
  rw [hX2] at hdoc2 hart2
  -- step 3
  obtain ⟨hstep3, hdoc3, hart3⟩ :=
    add_unit_step (catner_add_article_unit
        (catner_add_article_unit s (some aid) (some "PCE") none true).2
        (some aid) (some "PCE") (some "1") true).2 aid anm an
      (modifyIdx (fun _ => XNode.elem an (cs ++ [XNode.elem "ARTICLE_ORDER_DETAILS"
        [XNode.elem "ORDER_UNIT" [XNode.text "PCE"],
         XNode.elem "ALTERNATIVE_UNIT" [XNode.elem "ALTERNATIVE_UNIT_CODE" [XNode.text "PCE"],
           XNode.elem "ALTERNATIVE_UNIT_FACTOR" [XNode.text "1"]]]]))
        (modifyIdx (fun _ => XNode.elem an (cs ++ [XNode.elem "ARTICLE_ORDER_DETAILS"
          [XNode.elem "ORDER_UNIT" [XNode.text "PCE"],
           XNode.elem "ALTERNATIVE_UNIT" [XNode.elem "ALTERNATIVE_UNIT_CODE" [XNode.text "PCE"],
             XNode.elem "ALTERNATIVE_UNIT_FACTOR" [XNode.text "1"]]]])) acs i) i)
      (cs ++ [XNode.elem "ARTICLE_ORDER_DETAILS"
        [XNode.elem "ORDER_UNIT" [XNode.text "PCE"],
         XNode.elem "ALTERNATIVE_UNIT" [XNode.elem "ALTERNATIVE_UNIT_CODE" [XNode.text "PCE"],
           XNode.elem "ALTERNATIVE_UNIT_FACTOR" [XNode.text "1"]]]])
      i (some "MTR") (some "6") true hdoc2 hart2
  have hX3 : addUnitArticle (XNode.elem an (cs ++ [XNode.elem "ARTICLE_ORDER_DETAILS"
      [XNode.elem "ORDER_UNIT" [XNode.text "PCE"],
       XNode.elem "ALTERNATIVE_UNIT" [XNode.elem "ALTERNATIVE_UNIT_CODE" [XNode.text "PCE"],
         XNode.elem "ALTERNATIVE_UNIT_FACTOR" [XNode.text "1"]]]]))
      ((some "MTR").getD LIBCATNER_DEF_UNIT_CODE)
      ((some "6").getD LIBCATNER_DEF_UNIT_FACTOR) true =
      XNode.elem an (cs ++ [XNode.elem "ARTICLE_ORDER_DETAILS"
        [XNode.elem "ORDER_UNIT" [XNode.text "MTR"],
         XNode.elem "ALTERNATIVE_UNIT" [XNode.elem "ALTERNATIVE_UNIT_CODE" [XNode.text "PCE"],
           XNode.elem "ALTERNATIVE_UNIT_FACTOR" [XNode.text "1"]],
         XNode.elem "ALTERNATIVE_UNIT" [XNode.elem "ALTERNATIVE_UNIT_CODE" [XNode.text "MTR"],
           XNode.elem "ALTERNATIVE_UNIT_FACTOR" [XNode.text "6"]]]]) := by
    rw [addUnitArticle_units_some _ _ _ hfindu1]
    rw [show ((some "MTR").getD LIBCATNER_DEF_UNIT_CODE) = "MTR" from rfl,
      show ((some "6").getD LIBCATNER_DEF_UNIT_FACTOR) = "6" from rfl]
    rw [modifyIdx_append_length, hu3]
  rw [hX3] at hart3
  refine ⟨by rw [hstep1], by rw [hstep2], by rw [hstep3], ?_⟩
  refine ⟨XNode.elem an (cs ++ [XNode.elem "ARTICLE_ORDER_DETAILS"
      [XNode.elem "ORDER_UNIT" [XNode.text "MTR"],
       XNode.elem "ALTERNATIVE_UNIT" [XNode.elem "ALTERNATIVE_UNIT_CODE" [XNode.text "PCE"],
         XNode.elem "ALTERNATIVE_UNIT_FACTOR" [XNode.text "1"]],
       XNode.elem "ALTERNATIVE_UNIT" [XNode.elem "ALTERNATIVE_UNIT_CODE" [XNode.text "MTR"],
         XNode.elem "ALTERNATIVE_UNIT_FACTOR" [XNode.text "6"]]]]), ?_, ?_, ?_, ?_⟩
  · unfold articleNodeOf
    rw [hart3]
    rfl
  all_goals {
    have hfu3 : unitsNodeOf (XNode.elem an (cs ++ [XNode.elem "ARTICLE_ORDER_DETAILS"
        [XNode.elem "ORDER_UNIT" [XNode.text "MTR"],
         XNode.elem "ALTERNATIVE_UNIT" [XNode.elem "ALTERNATIVE_UNIT_CODE" [XNode.text "PCE"],
           XNode.elem "ALTERNATIVE_UNIT_FACTOR" [XNode.text "1"]],
         XNode.elem "ALTERNATIVE_UNIT" [XNode.elem "ALTERNATIVE_UNIT_CODE" [XNode.text "MTR"],
           XNode.elem "ALTERNATIVE_UNIT_FACTOR" [XNode.text "6"]]]])) =
        some (XNode.elem "ARTICLE_ORDER_DETAILS"
          [XNode.elem "ORDER_UNIT" [XNode.text "MTR"],
           XNode.elem "ALTERNATIVE_UNIT" [XNode.elem "ALTERNATIVE_UNIT_CODE" [XNode.text "PCE"],
             XNode.elem "ALTERNATIVE_UNIT_FACTOR" [XNode.text "1"]],
           XNode.elem "ALTERNATIVE_UNIT" [XNode.elem "ALTERNATIVE_UNIT_CODE" [XNode.text "MTR"],
             XNode.elem "ALTERNATIVE_UNIT_FACTOR" [XNode.text "6"]]]) := by
      have hfind3 : findWithIdx (matchNV "ARTICLE_ORDER_DETAILS" none)
          (cs ++ [XNode.elem "ARTICLE_ORDER_DETAILS"
            [XNode.elem "ORDER_UNIT" [XNode.text "MTR"],
             XNode.elem "ALTERNATIVE_UNIT" [XNode.elem "ALTERNATIVE_UNIT_CODE" [XNode.text "PCE"],
               XNode.elem "ALTERNATIVE_UNIT_FACTOR" [XNode.text "1"]],
             XNode.elem "ALTERNATIVE_UNIT" [XNode.elem "ALTERNATIVE_UNIT_CODE" [XNode.text "MTR"],
               XNode.elem "ALTERNATIVE_UNIT_FACTOR" [XNode.text "6"]]]]) =
          some (cs.length, XNode.elem "ARTICLE_ORDER_DETAILS"
            [XNode.elem "ORDER_UNIT" [XNode.text "MTR"],
             XNode.elem "ALTERNATIVE_UNIT" [XNode.elem "ALTERNATIVE_UNIT_CODE" [XNode.text "PCE"],
               XNode.elem "ALTERNATIVE_UNIT_FACTOR" [XNode.text "1"]],
             XNode.elem "ALTERNATIVE_UNIT" [XNode.elem "ALTERNATIVE_UNIT_CODE" [XNode.text "MTR"],
               XNode.elem "ALTERNATIVE_UNIT_FACTOR" [XNode.text "6"]]]) :=
        find_units_append hno' rfl
      unfold unitsNodeOf
      rw [find_child_elem, hfind3]
      rfl
    first
      | (unfold altUnitsOf; rw [hfu3]; decide)
      | (unfold mainUnitOf; rw [hfu3]; decide)
      | (unfold numMainUnitsOf; rw [hfu3]; decide)
  }

theorem removeIdx_append_left {l : List XNode} (l' : List XNode) {i : Nat}
    (h : i < l.length) : removeIdx (l ++ l') i = removeIdx l i ++ l' := by
  induction l generalizing i with
  | nil => simp at h
  | cons c cs ih =>
      cases i with
      | zero => rfl
      | succ k =>
          have hk : k < cs.length := by simpa using h
          simpa [removeIdx] using ih hk

theorem length_removeIdx {l : List XNode} {i : Nat} (h : i < l.length) :
    (removeIdx l i).length = l.length - 1 := by
  induction l generalizing i with
  | nil => simp at h
  | cons c cs ih =>
      cases i with
      | zero => simp [removeIdx]
      | succ k =>
          have hk : k < cs.length := by simpa using h
          rw [show removeIdx (c :: cs) (k + 1) = c :: removeIdx cs k from rfl]
          simp only [List.length_cons, ih hk]
          omega

theorem findWithIdx_removeIdx_none {p : XNode → Bool} {l : List XNode}
    (h : findWithIdx p l = none) (i : Nat) :
    findWithIdx p (removeIdx l i) = none := by
  induction l generalizing i with
  | nil => exact h
  | cons c cs ih =>
      rw [findWithIdx_cons] at h
      by_cases hc : p c
      · rw [if_pos hc] at h; simp at h
      · rw [if_neg hc] at h
        have hcs : findWithIdx p cs = none := by
          cases hf : findWithIdx p cs with
          | none => rfl
          | some r => rw [hf] at h; simp at h
        cases i with
        | zero => exact hcs
        | succ k =>
            rw [show removeIdx (c :: cs) (k + 1) = c :: removeIdx cs k from rfl,
              findWithIdx_cons, if_neg hc, ih hcs k]
            rfl

theorem countP_eq_zero_of_find_none {p : XNode → Bool} {l : List XNode}
    (h : findWithIdx p l = none) : l.countP p = 0 := by
  rw [List.countP_eq_zero]
  intro a ha
  rw [findWithIdx_eq_none h a ha]
  exact Bool.false_ne_true

theorem addVariantFeature_props (fn : String) (fcs : List XNode) (vid value : String)
    (hcount : fcs.countP (fun c => matchNV "FVALUE" none c) ≤ 1)
    (hsucc : (addVariantFeature (XNode.elem fn fcs) vid value).1 = 0) :
    ((addVariantFeature (XNode.elem fn fcs) vid value).2.children.countP
        (fun c => matchNV "FVALUE" none c) = 0) ∧
    libcatner_num_variants (addVariantFeature (XNode.elem fn fcs) vid value).2 =
      libcatner_num_variants (XNode.elem fn fcs) + 1 := by
  have hnumv : ∀ (L : List XNode) (m : String) (vcs : List XNode) (k : Nat),
      findWithIdx (matchNV "VARIANTS" none) L = some (k, XNode.elem m vcs) →
      libcatner_num_variants (XNode.elem fn L) =
        vcs.countP (fun c => matchNV "VARIANT" none c) := by
    intro L m vcs k hk
    unfold libcatner_num_variants
    rw [show libcatner_find_child (XNode.elem fn L) "VARIANTS" none =
      findWithIdx (matchNV "VARIANTS" none) L from rfl, hk]
    rfl
  have hnumv0 : ∀ (L : List XNode),
      findWithIdx (matchNV "VARIANTS" none) L = none →
      libcatner_num_variants (XNode.elem fn L) = 0 := by
    intro L hk
    unfold libcatner_num_variants
    rw [show libcatner_find_child (XNode.elem fn L) "VARIANTS" none =
      findWithIdx (matchNV "VARIANTS" none) L from rfl, hk]
  cases hv : libcatner_find_child (XNode.elem fn fcs) "VARIANTS" none with
  | some r =>
      obtain ⟨vi, variants⟩ := r
      have hvf : findWithIdx (matchNV "VARIANTS" none) fcs = some (vi, variants) := hv
      have hex := findWithIdx_eq_some hvf
      have hvname : variants.name = "VARIANTS" := name_of_matchNV_none hex.2
      obtain ⟨vn, vcs, rfl⟩ : ∃ n l, variants = XNode.elem n l := by
        cases variants with
        | text s => simp [XNode.name] at hvname
        | elem n l => exact ⟨n, l, rfl⟩
      cases hdup : (XNode.elem vn vcs).children.any (fun ch => ch.name == "VARIANT" &&
          (libcatner_find_child ch "SUPPLIER_AID_SUPPLEMENT" (some vid)).isSome) with
      | true =>
          have heq : addVariantFeature (XNode.elem fn fcs) vid value =
              (-1, XNode.elem fn fcs) := by
            unfold addVariantFeature
            rw [hv]
            simp only [hdup, if_true]
          rw [heq] at hsucc
          simp at hsucc
      | false =>
          cases hfv : libcatner_find_child (XNode.elem fn fcs) "FVALUE" none with
          | some rf =>
              obtain ⟨fvi, fvnode⟩ := rf
              have hfvf : findWithIdx (matchNV "FVALUE" none) fcs = some (fvi, fvnode) := hfv
              have hfex := findWithIdx_eq_some hfvf
              have hfvname : fvnode.name = "FVALUE" := name_of_matchNV_none hfex.2
              have hneq : fvi ≠ vi := by
                intro he
                have h1 : fcs[fvi]? = some fvnode := hfex.1
                have h2 : fcs[vi]? = some (XNode.elem vn vcs) := hex.1
                rw [he, h2] at h1
                injection h1 with h1
                rw [← h1, hvname] at hfvname
                exact absurd hfvname (by decide)
              have heq : addVariantFeature (XNode.elem fn fcs) vid value =
                  (0, XNode.elem fn (modifyIdx (·.pushChild (XNode.elem "VARIANT"
                    [XNode.elem "SUPPLIER_AID_SUPPLEMENT" [XNode.text vid],
                     XNode.elem "FVALUE" [XNode.text value]]))
                    (removeIdx fcs fvi) (if fvi < vi then vi - 1 else vi))) := by
                unfold addVariantFeature
                rw [hv]
                simp only [hdup, Bool.false_eq_true, if_false, hfv]
                rfl
              rw [heq]
              constructor
              · show (modifyIdx _ (removeIdx fcs fvi) _).countP _ = 0
                rw [countP_modifyIdx_congr
                  (fun x => by rw [matchNV_none, matchNV_none, XNode.name_pushChild])]
                rw [countP_removeIdx_found hfvf]
                have hbr : List.countP (matchNV "FVALUE" none) fcs =
                    List.countP (fun c => matchNV "FVALUE" none c) fcs := rfl
                omega
              · have hrm := findWithIdx_removeIdx hvf hneq
                have hfind2 : findWithIdx (matchNV "VARIANTS" none)
                    (modifyIdx (·.pushChild (XNode.elem "VARIANT"
                      [XNode.elem "SUPPLIER_AID_SUPPLEMENT" [XNode.text vid],
                       XNode.elem "FVALUE" [XNode.text value]]))
                      (removeIdx fcs fvi) (if fvi < vi then vi - 1 else vi)) =
                    some (if fvi < vi then vi - 1 else vi,
                      XNode.elem vn (vcs ++ [XNode.elem "VARIANT"
                        [XNode.elem "SUPPLIER_AID_SUPPLEMENT" [XNode.text vid],
                         XNode.elem "FVALUE" [XNode.text value]]])) := by
                  rw [findWithIdx_modifyIdx_congr
                    (fun x => by rw [matchNV_none, matchNV_none, XNode.name_pushChild]),
                    hrm]
                  simp
                  rfl
                rw [hnumv _ _ _ _ hfind2, hnumv _ _ _ _ hvf]
                rw [List.countP_append]
                rfl
          | none =>
              have hfvf : findWithIdx (matchNV "FVALUE" none) fcs = none := hfv
              have heq : addVariantFeature (XNode.elem fn fcs) vid value =
                  (0, XNode.elem fn (modifyIdx (·.pushChild (XNode.elem "VARIANT"
                    [XNode.elem "SUPPLIER_AID_SUPPLEMENT" [XNode.text vid],
                     XNode.elem "FVALUE" [XNode.text value]])) fcs vi)) := by
                unfold addVariantFeature
                rw [hv]
                simp only [hdup, Bool.false_eq_true, if_false, hfv]
                rfl
              rw [heq]
              constructor
              · show (modifyIdx _ fcs vi).countP _ = 0
                rw [countP_modifyIdx_congr
                  (fun x => by rw [matchNV_none, matchNV_none, XNode.name_pushChild])]
                exact countP_eq_zero_of_find_none hfvf
              · have hfind2 : findWithIdx (matchNV "VARIANTS" none)
                    (modifyIdx (·.pushChild (XNode.elem "VARIANT"
                      [XNode.elem "SUPPLIER_AID_SUPPLEMENT" [XNode.text vid],
                       XNode.elem "FVALUE" [XNode.text value]])) fcs vi) =
                    some (vi, XNode.elem vn (vcs ++ [XNode.elem "VARIANT"
                      [XNode.elem "SUPPLIER_AID_SUPPLEMENT" [XNode.text vid],
                       XNode.elem "FVALUE" [XNode.text value]]])) := by
                  rw [findWithIdx_modifyIdx_congr
                    (fun x => by rw [matchNV_none, matchNV_none, XNode.name_pushChild]),
                    hvf]
                  simp
                  rfl
                rw [hnumv _ _ _ _ hfind2, hnumv _ _ _ _ hvf]
                rw [List.countP_append]
                rfl
  | none =>
      have hvf : findWithIdx (matchNV "VARIANTS" none) fcs = none := hv
      have hpc : ((XNode.elem fn fcs).pushChild (XNode.elem "VARIANTS" [])) =
          XNode.elem fn (fcs ++ [XNode.elem "VARIANTS" []]) := rfl
      cases hf0 : findWithIdx (matchNV "FVALUE" none) fcs with
      | some rf =>
          obtain ⟨fvi, fvnode⟩ := rf
          have hfex := findWithIdx_eq_some hf0
          have hlt : fvi < fcs.length := (List.getElem?_eq_some.mp hfex.1).1
          have hap : libcatner_find_child ((XNode.elem fn fcs).pushChild
              (XNode.elem "VARIANTS" [])) "FVALUE" none = some (fvi, fvnode) := by
            rw [hpc, find_child_elem]
            exact findWithIdx_append_left _ hf0
          have hrm : removeIdx (fcs ++ [XNode.elem "VARIANTS" []]) fvi =
              removeIdx fcs fvi ++ [XNode.elem "VARIANTS" []] := removeIdx_append_left _ hlt
          have hif : (if fvi < (XNode.elem fn fcs).children.length then
              (XNode.elem fn fcs).children.length - 1
              else (XNode.elem fn fcs).children.length) = (removeIdx fcs fvi).length := by
            show (if fvi < fcs.length then fcs.length - 1 else fcs.length) = _
            rw [if_pos hlt, length_removeIdx hlt]
          have heq : addVariantFeature (XNode.elem fn fcs) vid value =
              (0, XNode.elem fn (removeIdx fcs fvi ++
                [XNode.elem "VARIANTS" [XNode.elem "VARIANT"
                  [XNode.elem "SUPPLIER_AID_SUPPLEMENT" [XNode.text vid],
                   XNode.elem "FVALUE" [XNode.text value]]]])) := by
            unfold addVariantFeature
            rw [hv]
            simp only [hap]
            show (0, ((XNode.elem fn fcs).pushChild
              (XNode.elem "VARIANTS" [])).mapChildren (removeIdx · fvi) |>.withChild
              (if fvi < (XNode.elem fn fcs).children.length then
                (XNode.elem fn fcs).children.length - 1
               else (XNode.elem fn fcs).children.length)
              (·.pushChild (XNode.elem "VARIANT"
                [XNode.elem "SUPPLIER_AID_SUPPLEMENT" [XNode.text vid],
                 XNode.elem "FVALUE" [XNode.text value]]))) = _
            rw [hpc]
            rw [show XNode.mapChildren (fun x => removeIdx x fvi)
              (XNode.elem fn (fcs ++ [XNode.elem "VARIANTS" []])) =
              XNode.elem fn (removeIdx (fcs ++ [XNode.elem "VARIANTS" []]) fvi) from rfl]
            rw [hrm, hif, XNode.children_withChild, modifyIdx_append_length]
            rfl
          rw [heq]
          constructor
          · show (removeIdx fcs fvi ++ [XNode.elem "VARIANTS" _]).countP _ = 0
            rw [List.countP_append, countP_removeIdx_found hf0]
            have hbr : List.countP (matchNV "FVALUE" none) fcs =
                List.countP (fun c => matchNV "FVALUE" none c) fcs := rfl
            have hz : ([XNode.elem "VARIANTS" [XNode.elem "VARIANT"
              [XNode.elem "SUPPLIER_AID_SUPPLEMENT" [XNode.text vid],
               XNode.elem "FVALUE" [XNode.text value]]]].countP
                (fun c => matchNV "FVALUE" none c)) = 0 := rfl
            omega
          · have hfind2 : findWithIdx (matchNV "VARIANTS" none)
                (removeIdx fcs fvi ++ [XNode.elem "VARIANTS" [XNode.elem "VARIANT"
                  [XNode.elem "SUPPLIER_AID_SUPPLEMENT" [XNode.text vid],
                   XNode.elem "FVALUE" [XNode.text value]]]]) =
                some ((removeIdx fcs fvi).length, XNode.elem "VARIANTS" [XNode.elem "VARIANT"
                  [XNode.elem "SUPPLIER_AID_SUPPLEMENT" [XNode.text vid],
                   XNode.elem "FVALUE" [XNode.text value]]]) :=
              findWithIdx_push (findWithIdx_removeIdx_none hvf fvi) rfl
            rw [hnumv _ _ _ _ hfind2, hnumv0 _ hvf]
            rfl
      | none =>
          have hap : libcatner_find_child ((XNode.elem fn fcs).pushChild
              (XNode.elem "VARIANTS" [])) "FVALUE" none = none := by
            rw [hpc, find_child_elem]
            exact findWithIdx_append_none hf0 rfl
          have heq : addVariantFeature (XNode.elem fn fcs) vid value =
              (0, XNode.elem fn (fcs ++
                [XNode.elem "VARIANTS" [XNode.elem "VARIANT"
                  [XNode.elem "SUPPLIER_AID_SUPPLEMENT" [XNode.text vid],
                   XNode.elem "FVALUE" [XNode.text value]]]])) := by
            unfold addVariantFeature
            rw [hv]
            simp only [hap]
            show (0, ((XNode.elem fn fcs).pushChild (XNode.elem "VARIANTS" [])).withChild
              (XNode.elem fn fcs).children.length
              (·.pushChild (XNode.elem "VARIANT"
                [XNode.elem "SUPPLIER_AID_SUPPLEMENT" [XNode.text vid],
                 XNode.elem "FVALUE" [XNode.text value]]))) = _
            rw [hpc]
            rw [show (XNode.elem fn (fcs ++ [XNode.elem "VARIANTS" []])).withChild
              (XNode.elem fn fcs).children.length
              (·.pushChild (XNode.elem "VARIANT"
                [XNode.elem "SUPPLIER_AID_SUPPLEMENT" [XNode.text vid],
                 XNode.elem "FVALUE" [XNode.text value]])) =
              XNode.elem fn (modifyIdx (·.pushChild (XNode.elem "VARIANT"
                [XNode.elem "SUPPLIER_AID_SUPPLEMENT" [XNode.text vid],
                 XNode.elem "FVALUE" [XNode.text value]])) (fcs ++ [XNode.elem "VARIANTS" []])
                fcs.length) from rfl]
            rw [modifyIdx_append_length]
            rfl
          rw [heq]
          constructor
          · show (fcs ++ [XNode.elem "VARIANTS" _]).countP _ = 0
            rw [List.countP_append, countP_eq_zero_of_find_none hf0]
            rfl
          · have hfind2 : findWithIdx (matchNV "VARIANTS" none)
                (fcs ++ [XNode.elem "VARIANTS" [XNode.elem "VARIANT"
                  [XNode.elem "SUPPLIER_AID_SUPPLEMENT" [XNode.text vid],
                   XNode.elem "FVALUE" [XNode.text value]]]]) =
                some (fcs.length, XNode.elem "VARIANTS" [XNode.elem "VARIANT"
                  [XNode.elem "SUPPLIER_AID_SUPPLEMENT" [XNode.text vid],
                   XNode.elem "FVALUE" [XNode.text value]]]) :=
              findWithIdx_push hvf rfl
            rw [hnumv _ _ _ _ hfind2, hnumv0 _ hvf]
            rfl

/-- C6 (corrected, first half of the claim): whenever `catner_add_variant`
succeeds on a feature holding at most one scalar `FVALUE` child, the
updated feature node holds NO `FVALUE` child and exactly one more
`VARIANT` than before.  The claim's second half — that the invariant is
preserved by every public operation — is refuted by `tC6cex`. -/
theorem tC6 (s : CatnerState) (aid fid : Option String) (vid value : String)
    (p fp : XPath) (article : XNode) (fn : String) (fcs : List XNode)
    (hart : s.resolveArticle aid = some (p, article))
    (hfeat : s.resolveFeature p article fid = some (fp, XNode.elem fn fcs))
    (hget : s.doc.get? fp = some (XNode.elem fn fcs))
    (hcount : fcs.countP (fun c => matchNV "FVALUE" none c) ≤ 1)
    (hsucc : (catner_add_variant s aid fid vid value).1 = 0) :
    ∃ feat' : XNode,
      (catner_add_variant s aid fid vid value).2.doc.get? fp = some feat' ∧
      feat'.children.countP (fun c => matchNV "FVALUE" none c) = 0 ∧
      libcatner_num_variants feat' = libcatner_num_variants (XNode.elem fn fcs) + 1 := by
  have heq : catner_add_variant s aid fid vid value =
      (if (addVariantFeature (XNode.elem fn fcs) vid value).1 == 0 then
        (0, { s with doc := (s.doc.modify fp
          (fun _ => (addVariantFeature (XNode.elem fn fcs) vid value).2)) })
      else
        (-1, { s with
            error := LIBCATNER_ERR_ALREADY_EXISTS,
            doc := (s.doc.modify fp (fun _ => (addVariantFeature (XNode.elem fn fcs) vid value).2)) })) := by
    unfold catner_add_variant
    simp only [hart, hfeat]
  cases hb : ((addVariantFeature (XNode.elem fn fcs) vid value).1 == 0) with
  | false =>
      rw [heq, hb] at hsucc
      simp at hsucc
  | true =>
      have hs : (addVariantFeature (XNode.elem fn fcs) vid value).1 = 0 :=
        by exact_mod_cast eq_of_beq hb
      have hnode := addVariantFeature_props fn fcs vid value hcount hs
      refine ⟨(addVariantFeature (XNode.elem fn fcs) vid value).2, ?_, hnode.1, hnode.2⟩
      rw [heq, hb]
      show (s.doc.modify fp
        (fun _ => (addVariantFeature (XNode.elem fn fcs) vid value).2)).get? fp = _
      rw [XNode.get?_modify_self, hget]
      rfl

/-- Witness for C6: `tC6` applied to `exFeatValue`, whose feature `F1`
carries the scalar value "42". -/
theorem tC6_witness :
    ∃ feat' : XNode,
      (catner_add_variant exFeatValue (some "A1") (some "F1") "V1" "x").2.doc.get?
        [1, 0, 2, 0] = some feat' ∧
      feat'.children.countP (fun c => matchNV "FVALUE" none c) = 0 ∧
      libcatner_num_variants feat' = libcatner_num_variants (XNode.elem "FEATURE"
        [XNode.elem "FID" [XNode.text "F1"], XNode.elem "FORDER" [XNode.text "1"],
         XNode.elem "FNAME" [XNode.text "n1"],
         XNode.elem "FVALUE" [XNode.text "42"]]) + 1 :=
  tC6 exFeatValue (some "A1") (some "F1") "V1" "x" [1, 0] [1, 0, 2, 0]
    (XNode.elem "ARTICLE"
      [XNode.elem "SUPPLIER_AID" [XNode.text "A1"],
       XNode.elem "ARTICLE_DETAILS"
         [XNode.elem "DESCRIPTION_SHORT" [XNode.text "T"],
          XNode.elem "DESCRIPTION_LONG" [XNode.text "D"]],
       XNode.elem "ARTICLE_FEATURES"
         [XNode.elem "FEATURE"
           [XNode.elem "FID" [XNode.text "F1"], XNode.elem "FORDER" [XNode.text "1"],
            XNode.elem "FNAME" [XNode.text "n1"],
            XNode.elem "FVALUE" [XNode.text "42"]]]])
    "FEATURE"
    [XNode.elem "FID" [XNode.text "F1"], XNode.elem "FORDER" [XNode.text "1"],
     XNode.elem "FNAME" [XNode.text "n1"], XNode.elem "FVALUE" [XNode.text "42"]]
    (by decide) (by decide) (by decide) (by decide) (by decide)

theorem modifyIdx_modifyIdx_self (f g : XNode → XNode) (l : List XNode) (i : Nat) :
    modifyIdx f (modifyIdx g l i) i = modifyIdx (fun x => f (g x)) l i := by
  induction l generalizing i with
  | nil => rfl
  | cons c cs ih =>
      cases i with
      | zero => rfl
      | succ j => show c :: modifyIdx f (modifyIdx g cs j) j = _; rw [ih]; rfl

theorem childContent_set_child (c : XNode) (nm v : String)
    (hc : c.name ≠ "text") (hnm : nm ≠ "text") :
    childContent (libcatner_set_child c nm v true).2 nm = some v := by
  obtain ⟨n, cs, rfl⟩ : ∃ n cs, c = XNode.elem n cs := by
    cases c with
    | text s => exact absurd rfl hc
    | elem n cs => exact ⟨n, cs, rfl⟩
  cases hf : libcatner_find_child (XNode.elem n cs) nm none with
  | none =>
      have hfw : findWithIdx (matchNV nm none) cs = none := hf
      have hpush : findWithIdx (matchNV nm none) (cs ++ [XNode.elem nm [XNode.text v]]) =
          some (cs.length, XNode.elem nm [XNode.text v]) :=
        findWithIdx_push hfw (by simp [matchNV_none, XNode.name])
      have heq : (libcatner_set_child (XNode.elem n cs) nm v true).2 =
          XNode.elem n (cs ++ [XNode.elem nm [XNode.text v]]) := by
        unfold libcatner_set_child
        rw [hf]
        rfl
      rw [heq]
      unfold childContent
      rw [find_child_elem, hpush]
      show some (XNode.elem nm [XNode.text v]).content = some v
      rw [content_single]
  | some r =>
      obtain ⟨k, x⟩ := r
      have hfw : findWithIdx (matchNV nm none) cs = some (k, x) := hf
      have hpx := (findWithIdx_eq_some hfw).2
      have hxname : x.name = nm := name_of_matchNV_none hpx
      have hg : ∀ y, matchNV nm none (xmlNodeSetContent y v) = matchNV nm none y := by
        intro y; rw [matchNV_none, matchNV_none, name_xmlNodeSetContent]
      have heq : (libcatner_set_child (XNode.elem n cs) nm v true).2 =
          XNode.elem n (modifyIdx (xmlNodeSetContent · v) cs k) := by
        unfold libcatner_set_child
        rw [hf]
        rfl
      rw [heq]
      unfold childContent
      rw [find_child_elem, findWithIdx_modifyIdx_congr hg, hfw]
      show some ((if k = k then xmlNodeSetContent x v else x).content) = some v
      rw [if_pos rfl, content_setContent v (by rw [hxname]; exact hnm)]

theorem fixOrderList_spec (cs : List XNode) (i : Nat) :
    ((fixOrderList cs i).filter (fun c => c.name == "FEATURE")).map
        (fun f => childContent f "FORDER") =
      (List.range (cs.countP (fun c => c.name == "FEATURE"))).map
        (fun k => some (toString (k + i))) := by
  induction cs generalizing i with
  | nil => rfl
  | cons c cs ih =>
      cases hname : (c.name == "FEATURE") with
      | true =>
          have hfix : fixOrderList (c :: cs) i =
              (libcatner_set_child c "FORDER" (toString i) true).2 ::
                fixOrderList cs (i + 1) := by
            simp only [fixOrderList, hname, eq_self_iff_true, if_true]
          have hkeep : ((libcatner_set_child c "FORDER" (toString i) true).2.name ==
              "FEATURE") = true := by
            rw [name_set_child]; exact hname
          have hcn : c.name ≠ "text" := by
            intro h
            rw [h] at hname
            exact absurd hname (by decide)
          rw [hfix, List.filter_cons]
          simp only [hkeep, eq_self_iff_true, if_true]
          rw [List.map_cons, childContent_set_child c "FORDER" (toString i) hcn (by decide),
            ih (i + 1), List.countP_cons, hname]
          simp only [eq_self_iff_true, if_true]
          rw [List.range_succ_eq_map, List.map_cons, List.map_map]
          show _ = some (toString (0 + i)) :: _
          rw [Nat.zero_add]
          refine congrArg (some (toString i) :: ·) ?_
          refine List.map_congr_left (fun k _ => ?_)
          show some (toString (k + (i + 1))) = some (toString (k.succ + i))
          refine congrArg (fun m => some (toString m)) ?_
          omega
      | false =>
          have hfix : fixOrderList (c :: cs) i = c :: fixOrderList cs i := by
            simp only [fixOrderList, hname, Bool.false_eq_true, if_false]
          rw [hfix, List.filter_cons]
          simp only [hname, Bool.false_eq_true, if_false]
          rw [ih i, List.countP_cons, hname]
          simp only [Bool.false_eq_true, if_false, Nat.add_zero]

theorem featureOrderInv_fix (article : XNode) :
    featureOrderInv (libcatner_fix_feature_order article) := by
  unfold libcatner_fix_feature_order
  cases hf : libcatner_find_child article "ARTICLE_FEATURES" none with
  | none =>
      unfold featureOrderInv featOrdersOf featListOf
      simp only [hf]
      rfl
  | some r =>
      obtain ⟨fi, features⟩ := r
      obtain ⟨an, acs, rfl⟩ : ∃ n cs, article = XNode.elem n cs :=
        elem_of_find_child_isSome (by rw [hf]; rfl)
      have hfw : findWithIdx (matchNV "ARTICLE_FEATURES" none) acs = some (fi, features) := hf
      have hfx := findWithIdx_eq_some hfw
      have hfname : features.name = "ARTICLE_FEATURES" := name_of_matchNV_none hfx.2
      obtain ⟨m, fcs, rfl⟩ : ∃ n cs, features = XNode.elem n cs := by
        cases features with
        | text s => simp [XNode.name] at hfname
        | elem n cs => exact ⟨n, cs, rfl⟩
      have hg : ∀ x, matchNV "ARTICLE_FEATURES" none (x.mapChildren (fixOrderList · 1)) =
          matchNV "ARTICLE_FEATURES" none x := by
        intro x; rw [matchNV_none, matchNV_none, XNode.name_mapChildren]
      have hfind : libcatner_find_child
          ((XNode.elem an acs).withChild fi (XNode.mapChildren (fixOrderList · 1)))
          "ARTICLE_FEATURES" none =
          some (fi, XNode.elem m (fixOrderList fcs 1)) := by
        rw [XNode.children_withChild, find_child_elem, findWithIdx_modifyIdx_congr hg, hfw]
        simp
        rfl
      have hfl : featListOf ((XNode.elem an acs).withChild fi
          (XNode.mapChildren (fixOrderList · 1))) =
          (fixOrderList fcs 1).filter (fun c => c.name == "FEATURE") := by
        unfold featListOf
        simp only [hfind]
        rfl
      have horders := fixOrderList_spec fcs 1
      have hlen : (featListOf ((XNode.elem an acs).withChild fi
          (XNode.mapChildren (fixOrderList · 1)))).length =
          fcs.countP (fun c => c.name == "FEATURE") := by
        rw [hfl]
        have := congrArg List.length horders
        simpa using this
      unfold featureOrderInv featOrdersOf
      rw [hlen, hfl, horders]

theorem name_mkFeatureNode (fid ord : String) (name descr unit value : Option String) :
    (mkFeatureNode fid ord name descr unit value).name = "FEATURE" := rfl

theorem featListOf_addFeature (an : String) (acs : List XNode) (fid : String)
    (nm d u v : Option String) :
    featListOf (addFeatureArticle (XNode.elem an acs) fid nm d u v) =
      featListOf (XNode.elem an acs) ++
        [mkFeatureNode fid (toString (libcatner_num_features (XNode.elem an acs) + 1))
          nm d u v] := by
  cases hf : libcatner_find_child (XNode.elem an acs) "ARTICLE_FEATURES" none with
  | some r =>
      obtain ⟨fi, features⟩ := r
      have hfw : findWithIdx (matchNV "ARTICLE_FEATURES" none) acs = some (fi, features) := hf
      have hfx := findWithIdx_eq_some hfw
      have hfname : features.name = "ARTICLE_FEATURES" := name_of_matchNV_none hfx.2
      obtain ⟨m, fcs, rfl⟩ : ∃ n cs, features = XNode.elem n cs := by
        cases features with
        | text s => simp [XNode.name] at hfname
        | elem n cs => exact ⟨n, cs, rfl⟩
      have hres : addFeatureArticle (XNode.elem an acs) fid nm d u v =
          (XNode.elem an acs).withChild fi
            (·.pushChild (mkFeatureNode fid
              (toString (libcatner_num_features (XNode.elem an acs) + 1)) nm d u v)) := by
        unfold addFeatureArticle libcatner_get_child_add
        simp only [hf]
      have hg : ∀ x, matchNV "ARTICLE_FEATURES" none
          (x.pushChild (mkFeatureNode fid
            (toString (libcatner_num_features (XNode.elem an acs) + 1)) nm d u v)) =
          matchNV "ARTICLE_FEATURES" none x := by
        intro x; rw [matchNV_none, matchNV_none, XNode.name_pushChild]
      have hfind : libcatner_find_child ((XNode.elem an acs).withChild fi
          (·.pushChild (mkFeatureNode fid
            (toString (libcatner_num_features (XNode.elem an acs) + 1)) nm d u v)))
          "ARTICLE_FEATURES" none =
          some (fi, XNode.elem m (fcs ++ [mkFeatureNode fid
            (toString (libcatner_num_features (XNode.elem an acs) + 1)) nm d u v])) := by
        rw [XNode.children_withChild, find_child_elem, findWithIdx_modifyIdx_congr hg, hfw]
        simp
        rfl
      rw [hres]
      unfold featListOf
      simp only [hfind, hf]
      show (fcs ++ [mkFeatureNode fid _ nm d u v]).filter (fun c => c.name == "FEATURE") = _
      rw [List.filter_append]
      refine congrArg (fcs.filter (fun c => c.name == "FEATURE") ++ ·) ?_
      rw [List.filter_cons, name_mkFeatureNode]
      simp
  | none =>
      have hfw : findWithIdx (matchNV "ARTICLE_FEATURES" none) acs = none := hf
      have hres : addFeatureArticle (XNode.elem an acs) fid nm d u v =
          XNode.elem an (acs ++ [XNode.elem "ARTICLE_FEATURES"
            [mkFeatureNode fid (toString (libcatner_num_features (XNode.elem an acs) + 1))
              nm d u v]]) := by
        unfold addFeatureArticle libcatner_get_child_add
        simp only [hf]
        show XNode.elem an (modifyIdx
          (fun x => x.pushChild (mkFeatureNode fid
            (toString (libcatner_num_features (XNode.elem an acs) + 1)) nm d u v))
          (acs ++ [XNode.elem "ARTICLE_FEATURES" []]) acs.length) = _
        rw [modifyIdx_append_length]
        rfl
      have hfind : libcatner_find_child (XNode.elem an (acs ++
          [XNode.elem "ARTICLE_FEATURES"
            [mkFeatureNode fid (toString (libcatner_num_features (XNode.elem an acs) + 1))
              nm d u v]])) "ARTICLE_FEATURES" none =
          some (acs.length, XNode.elem "ARTICLE_FEATURES"
            [mkFeatureNode fid (toString (libcatner_num_features (XNode.elem an acs) + 1))
              nm d u v]) := by
        rw [find_child_elem]
        exact findWithIdx_push hfw (by rw [matchNV_none]; rfl)
      rw [hres]
      unfold featListOf
      simp only [hfind, hf]
      show [mkFeatureNode fid _ nm d u v].filter (fun c => c.name == "FEATURE") = _
      rw [List.filter_cons, name_mkFeatureNode]
      simp

theorem childContent_mkFeatureNode_forder (fid ord : String)
    (nm d u v : Option String) :
    childContent (mkFeatureNode fid ord nm d u v) "FORDER" = some ord := by
  unfold childContent mkFeatureNode
  rw [show libcatner_find_child (XNode.elem "FEATURE"
      ([XNode.elem "FID" [XNode.text fid], XNode.elem "FORDER" [XNode.text ord]] ++
        (match nm with | some v => [XNode.elem "FNAME" [XNode.text v]] | none => []) ++
        (match d with | some v => [XNode.elem "FDESCR" [XNode.text v]] | none => []) ++
        (match u with | some v => [XNode.elem "FUNIT" [XNode.text v]] | none => []) ++
        (match v with | some w => [XNode.elem "FVALUE" [XNode.text w]] | none => [])))
      "FORDER" none =
    findWithIdx (matchNV "FORDER" none)
      (XNode.elem "FID" [XNode.text fid] :: XNode.elem "FORDER" [XNode.text ord] ::
        ((match nm with | some v => [XNode.elem "FNAME" [XNode.text v]] | none => []) ++
         (match d with | some v => [XNode.elem "FDESCR" [XNode.text v]] | none => []) ++
         (match u with | some v => [XNode.elem "FUNIT" [XNode.text v]] | none => []) ++
         (match v with | some w => [XNode.elem "FVALUE" [XNode.text w]] | none => [])))
    from by rw [find_child_elem]; simp]
  rw [findWithIdx_cons, if_neg (by rw [matchNV_none]; simp [XNode.name])]
  rw [findWithIdx_cons, if_pos (by rw [matchNV_none]; simp [XNode.name])]
  show some (XNode.elem "FORDER" [XNode.text ord]).content = some ord
  rw [content_single]

theorem featureOrderInv_addFeature (an : String) (acs : List XNode) (fid : String)
    (nm d u v : Option String)
    (hinv : featureOrderInv (XNode.elem an acs)) :
    featureOrderInv (addFeatureArticle (XNode.elem an acs) fid nm d u v) := by
  unfold featureOrderInv featOrdersOf at hinv ⊢
  rw [featListOf_addFeature]
  rw [List.map_append, hinv, List.map_cons, List.map_nil,
    childContent_mkFeatureNode_forder]
  rw [List.length_append, List.length_singleton, List.range_succ, List.map_append,
    List.map_cons, List.map_nil]
  rw [num_features_eq_featList_length]

theorem featureOrdersOK_step (s : CatnerState) (op : FeatOp)
    (hok : FeatureOrdersOK s) : FeatureOrdersOK (applyFeatOp s op) := by
  cases op with
  | addF aid fid nm d u v =>
      show FeatureOrdersOK (catner_add_feature s (some aid) fid nm d u v).2
      cases hga : libcatner_get_article s.articlesNode aid with
      | none =>
          have hra : s.resolveArticle (some aid) = none := by
            unfold CatnerState.resolveArticle
            simp only [hga]
            rfl
          have heq : (catner_add_feature s (some aid) fid nm d u v).2 =
              { s with error := LIBCATNER_ERR_NO_SUCH_AID } := by
            unfold catner_add_feature
            rw [hra]
          rw [heq]
          exact hok
      | some r =>
          obtain ⟨i, article⟩ := r
          have hra : s.resolveArticle (some aid) =
              some (articlesPath ++ [i], article) := by
            unfold CatnerState.resolveArticle
            simp only [hga]
            rfl
          cases hgf : libcatner_get_feature article fid with
          | some rf =>
              have heq : (catner_add_feature s (some aid) fid nm d u v).2 =
                  { s with error := LIBCATNER_ERR_ALREADY_EXISTS } := by
                unfold catner_add_feature
                simp only [hra, hgf]
              rw [heq]
              exact hok
          | none =>
              have heq : (catner_add_feature s (some aid) fid nm d u v).2 =
                  { s with doc := (s.doc.modify (articlesPath ++ [i])
                    (fun _ => addFeatureArticle article fid nm d u v)) } := by
                unfold catner_add_feature
                simp only [hra, hgf]
              rw [heq]
              have hgaw : findWithIdx
                  (fun a => (libcatner_find_child a "SUPPLIER_AID" (some aid)).isSome)
                  s.articlesNode.children = some (i, article) := hga
              have hidx := findWithIdx_eq_some hgaw
              cases hd : s.doc.get? articlesPath with
              | none =>
                  have hdef : s.articlesNode = XNode.elem "T_NEW_CATALOG" [] := by
                    unfold CatnerState.articlesNode
                    rw [hd]
                    rfl
                  rw [hdef] at hidx
                  exact absurd hidx.1 (by simp [XNode.children])
              | some A =>
                  have hA : s.articlesNode = A := by
                    unfold CatnerState.articlesNode
                    rw [hd]
                    rfl
                  obtain ⟨an, bcs, rfl⟩ : ∃ n cs, A = XNode.elem n cs := by
                    cases A with
                    | text t =>
                        rw [hA] at hidx
                        exact absurd hidx.1 (by simp [XNode.children])
                    | elem n cs => exact ⟨n, cs, rfl⟩
                  have hnode : ({ s with doc := (s.doc.modify (articlesPath ++ [i])
                      (fun _ => addFeatureArticle article fid nm d u v)) } :
                        CatnerState).articlesNode =
                      XNode.elem an (modifyIdx
                        (fun _ => addFeatureArticle article fid nm d u v) bcs i) := by
                    unfold CatnerState.articlesNode
                    show ((s.doc.modify (articlesPath ++ [i])
                      (fun _ => addFeatureArticle article fid nm d u v)).get?
                        articlesPath).getD (XNode.elem "T_NEW_CATALOG" []) = _
                    rw [XNode.modify_append, XNode.get?_modify_self, hd]
                    rfl
                  intro a ha
                  rw [hnode] at ha
                  have ha' : a ∈ modifyIdx
                      (fun _ => addFeatureArticle article fid nm d u v) bcs i := ha
                  rcases mem_modifyIdx ha' with hmem | ⟨x, hx, rfl⟩
                  · exact hok a (by rw [hA]; exact hmem)
                  · obtain ⟨cn, ccs, rfl⟩ : ∃ n cs, article = XNode.elem n cs :=
                      elem_of_find_child_isSome hidx.2
                    have hmemart : (XNode.elem cn ccs) ∈ s.articlesNode.children := by
                      rw [hA]
                      exact List.getElem?_mem (by rw [hA] at hidx; exact hidx.1)
                    exact featureOrderInv_addFeature cn ccs fid nm d u v (hok _ hmemart)
  | delF aid fid =>
      show FeatureOrdersOK (catner_del_feature s (some aid) (some fid)).2
      cases hga : libcatner_get_article s.articlesNode aid with
      | none =>
          have hra : s.resolveArticle (some aid) = none := by
            unfold CatnerState.resolveArticle
            simp only [hga]
            rfl
          have heq : (catner_del_feature s (some aid) (some fid)).2 =
              { s with error := LIBCATNER_ERR_NO_SUCH_AID } := by
            unfold catner_del_feature
            rw [hra]
          rw [heq]
          exact hok
      | some r =>
          obtain ⟨i, article⟩ := r
          have hra : s.resolveArticle (some aid) =
              some (articlesPath ++ [i], article) := by
            unfold CatnerState.resolveArticle
            simp only [hga]
            rfl
          cases hgf : libcatner_get_feature article fid with
          | none =>
              have hrf : s.resolveFeature (articlesPath ++ [i]) article (some fid) =
                  none := by
                unfold CatnerState.resolveFeature
                simp only [hgf]
                rfl
              have heq : (catner_del_feature s (some aid) (some fid)).2 =
                  { s with error := LIBCATNER_ERR_NO_SUCH_FID } := by
                unfold catner_del_feature
                simp only [hra, hrf]
              rw [heq]
              exact hok
          | some rf =>
              obtain ⟨fi, j, fnode⟩ := rf
              have hrf : s.resolveFeature (articlesPath ++ [i]) article (some fid) =
                  some ((articlesPath ++ [i]) ++ [fi, j], fnode) := by
                unfold CatnerState.resolveFeature
                simp only [hgf]
                rfl
              have hgaw : findWithIdx
                  (fun a => (libcatner_find_child a "SUPPLIER_AID" (some aid)).isSome)
                  s.articlesNode.children = some (i, article) := hga
              have hidx := findWithIdx_eq_some hgaw
              have hOKdoc : ∀ t : CatnerState,
                  t.doc = (s.doc.removeAt ((articlesPath ++ [i]) ++ [fi, j])).modify
                    (articlesPath ++ [i]) libcatner_fix_feature_order →
                  FeatureOrdersOK t := by
                intro t ht
                cases hd : s.doc.get? articlesPath with
                | none =>
                    have hdef : s.articlesNode = XNode.elem "T_NEW_CATALOG" [] := by
                      unfold CatnerState.articlesNode
                      rw [hd]
                      rfl
                    rw [hdef] at hidx
                    exact absurd hidx.1 (by simp [XNode.children])
                | some A =>
                    have hA : s.articlesNode = A := by
                      unfold CatnerState.articlesNode
                      rw [hd]
                      rfl
                    obtain ⟨an, bcs, rfl⟩ : ∃ n cs, A = XNode.elem n cs := by
                      cases A with
                      | text tt =>
                          rw [hA] at hidx
                          exact absurd hidx.1 (by simp [XNode.children])
                      | elem n cs => exact ⟨n, cs, rfl⟩
                    have hnode : t.articlesNode =
                        XNode.elem an (modifyIdx libcatner_fix_feature_order
                          (modifyIdx (fun x => x.removeAt [fi, j]) bcs i) i) := by
                      unfold CatnerState.articlesNode
                      rw [ht, List.append_assoc,
                        XNode.removeAt_append s.doc articlesPath (by simp),
                        XNode.modify_append, XNode.modify_modify_self,
                        XNode.get?_modify_self, hd]
                      rfl
                    intro a ha
                    rw [hnode] at ha
                    have ha' : a ∈ modifyIdx libcatner_fix_feature_order
                        (modifyIdx (fun x => x.removeAt [fi, j]) bcs i) i := ha
                    rw [modifyIdx_modifyIdx_self] at ha'
                    rcases mem_modifyIdx ha' with hmem | ⟨x, hx, rfl⟩
                    · exact hok a (by rw [hA]; exact hmem)
                    · exact featureOrderInv_fix _
              unfold catner_del_feature
              simp only [hra, hrf]
              cases hcur : (s.currFeature == some ((articlesPath ++ [i]) ++ [fi, j])) with
              | true =>
                  simp only [hcur, if_true, eq_self_iff_true]
                  exact hOKdoc _ rfl
              | false =>
                  simp only [hcur, Bool.false_eq_true, if_false]
                  exact hOKdoc _ rfl

/-- C3: the feature-order invariant — the `FORDER` values of every
article's `FEATURE` children are exactly "1".."N" in sibling order, each
feature's order equal to its 1-based rank — is preserved by every sequence
of `catner_add_feature` / `catner_del_feature` operations. -/
theorem tC3 (s : CatnerState) (hok : FeatureOrdersOK s) (ops : List FeatOp) :
    FeatureOrdersOK (applyFeatOps s ops) := by
  induction ops generalizing s with
  | nil => exact hok
  | cons op ops ih =>
      show FeatureOrdersOK (applyFeatOps (applyFeatOp s op) ops)
      exact ih (applyFeatOp s op) (featureOrdersOK_step s op hok)

/-- Witness for C3: the invariant holds of the one-article fixture and of
the state reached by the six-operation sequence `exFeatOps`. -/
theorem tC3_witness :
    FeatureOrdersOK exArticle ∧ FeatureOrdersOK (applyFeatOps exArticle exFeatOps) :=
  ⟨by decide, tC3 exArticle (by decide) exFeatOps⟩

/-- C8 (corrected): `catner_add_article` with an empty AID fails and makes
no change to the document, but the error slot records
`LIBCATNER_ERR_NO_SUCH_AID` (-10), not the InvalidValue code (-4) the spec
names. -/
theorem tC8 (s : CatnerState) (title descr : Option String) :
    catner_add_article s "" title descr =
      (-1, { s with error := LIBCATNER_ERR_NO_SUCH_AID }) ∧
    LIBCATNER_ERR_NO_SUCH_AID ≠ LIBCATNER_ERR_INVALID_VALUE := by
  exact ⟨rfl, by decide⟩

/-- Witness for C5: `tC5` applied to the fresh catalog and AID "A1". -/
theorem tC5_witness :
    (catner_add_article catner_init "A1" (some "T") (some "D")).1 = 0 ∧
    articleNodeOf (catner_add_article catner_init "A1" (some "T") (some "D")).2 "A1" =
      some (mkArticleNode "A1" (some "T") (some "D")) ∧
    (catner_add_article (catner_add_article catner_init "A1" (some "T") (some "D")).2
      "A1" (some "T2") (some "D2")).1 = -1 ∧
    (catner_add_article (catner_add_article catner_init "A1" (some "T") (some "D")).2
      "A1" (some "T2") (some "D2")).2.error = LIBCATNER_ERR_ALREADY_EXISTS ∧
    (catner_add_article (catner_add_article catner_init "A1" (some "T") (some "D")).2
      "A1" (some "T2") (some "D2")).2.doc =
      (catner_add_article catner_init "A1" (some "T") (some "D")).2.doc ∧
    articleNodeOf (catner_add_article
      (catner_add_article catner_init "A1" (some "T") (some "D")).2
      "A1" (some "T2") (some "D2")).2 "A1" =
      some (mkArticleNode "A1" (some "T") (some "D")) :=
  tC5 catner_init "A1" (some "T") (some "D") (some "T2") (some "D2") "T_NEW_CATALOG" []
    (by decide) (by decide) (by decide)

/-- Witness for C7: `tC7` applied to the one-article fixture, adding
feature "F2" with name "n2" and description/unit omitted. -/
theorem tC7_witness :
    (catner_add_feature exArticle (some "A1") "F2" (some "n2") none none none).1 = 0 ∧
    featureNodeOf (catner_add_feature exArticle (some "A1") "F2"
        (some "n2") none none none).2 "A1" "F2" =
      some (mkFeatureNode "F2" (toString (libcatner_num_features (XNode.elem "ARTICLE"
        [XNode.elem "SUPPLIER_AID" [XNode.text "A1"],
         XNode.elem "ARTICLE_DETAILS"
           [XNode.elem "DESCRIPTION_SHORT" [XNode.text "T"],
            XNode.elem "DESCRIPTION_LONG" [XNode.text "D"]]]) + 1))
        (some "n2") none none none) ∧
    childContent (mkFeatureNode "F2" (toString (libcatner_num_features (XNode.elem "ARTICLE"
        [XNode.elem "SUPPLIER_AID" [XNode.text "A1"],
         XNode.elem "ARTICLE_DETAILS"
           [XNode.elem "DESCRIPTION_SHORT" [XNode.text "T"],
            XNode.elem "DESCRIPTION_LONG" [XNode.text "D"]]]) + 1))
        (some "n2") none none none) "FDESCR" = none ∧
    childContent (mkFeatureNode "F2" (toString (libcatner_num_features (XNode.elem "ARTICLE"
        [XNode.elem "SUPPLIER_AID" [XNode.text "A1"],
         XNode.elem "ARTICLE_DETAILS"
           [XNode.elem "DESCRIPTION_SHORT" [XNode.text "T"],
            XNode.elem "DESCRIPTION_LONG" [XNode.text "D"]]]) + 1))
        (some "n2") none none none) "FUNIT" = none :=
  tC7 exArticle "A1" "F2" (some "n2") "T_NEW_CATALOG" "ARTICLE"
    [XNode.elem "ARTICLE"
      [XNode.elem "SUPPLIER_AID" [XNode.text "A1"],
       XNode.elem "ARTICLE_DETAILS"
         [XNode.elem "DESCRIPTION_SHORT" [XNode.text "T"],
          XNode.elem "DESCRIPTION_LONG" [XNode.text "D"]]]]
    [XNode.elem "SUPPLIER_AID" [XNode.text "A1"],
     XNode.elem "ARTICLE_DETAILS"
       [XNode.elem "DESCRIPTION_SHORT" [XNode.text "T"],
        XNode.elem "DESCRIPTION_LONG" [XNode.text "D"]]]
    0 (by decide) (by decide) (by decide)

/-- Witness for C2: `tC2` applied to the one-article fixture `exArticle`,
which has no unit block. -/
theorem tC2_witness :
    ((catner_add_article_unit exArticle (some "A1") (some "PCE") none true).1 = 0 ∧
     (catner_add_article_unit
       (catner_add_article_unit exArticle (some "A1") (some "PCE") none true).2
       (some "A1") (some "PCE") (some "1") true).1 = 0 ∧
     (catner_add_article_unit
       (catner_add_article_unit
         (catner_add_article_unit exArticle (some "A1") (some "PCE") none true).2
         (some "A1") (some "PCE") (some "1") true).2
       (some "A1") (some "MTR") (some "6") true).1 = 0 ∧
     (∃ a3, articleNodeOf
        (catner_add_article_unit
          (catner_add_article_unit
            (catner_add_article_unit exArticle (some "A1") (some "PCE") none true).2
            (some "A1") (some "PCE") (some "1") true).2
          (some "A1") (some "MTR") (some "6") true).2 "A1" = some a3 ∧
        altUnitsOf a3 = [(some "PCE", some "1"), (some "MTR", some "6")] ∧
        mainUnitOf a3 = some "MTR" ∧
        numMainUnitsOf a3 = 1)) ∧
    (∀ (dn : String) (dcs : List XNode) (c f : String) (m : Bool),
      libcatner_find_child (XNode.elem dn dcs) "ORDER_UNIT" none = none →
      childContent (addUnitDetails (XNode.elem dn dcs) c f m) "ORDER_UNIT" = some c) ∧
    (∀ (dn : String) (dcs : List XNode) (c f : String) (mi : Nat) (mnode : XNode),
      libcatner_find_child (XNode.elem dn dcs) "ORDER_UNIT" none = some (mi, mnode) →
      childContent (addUnitDetails (XNode.elem dn dcs) c f true) "ORDER_UNIT" = some c) :=
  tC2 exArticle "A1" "T_NEW_CATALOG" "ARTICLE"
    [XNode.elem "ARTICLE"
      [XNode.elem "SUPPLIER_AID" [XNode.text "A1"],
       XNode.elem "ARTICLE_DETAILS"
         [XNode.elem "DESCRIPTION_SHORT" [XNode.text "T"],
          XNode.elem "DESCRIPTION_LONG" [XNode.text "D"]]]]
    [XNode.elem "SUPPLIER_AID" [XNode.text "A1"],
     XNode.elem "ARTICLE_DETAILS"
       [XNode.elem "DESCRIPTION_SHORT" [XNode.text "T"],
        XNode.elem "DESCRIPTION_LONG" [XNode.text "D"]]]
    0 (by decide) (by decide) (by decide)

/-- C1 (code bug): after selecting article `A1`, its feature `F1` and its
first unit, a successful `catner_del_article` clears the article, feature,
variant and image cursors — but NOT the unit cursor, which still holds the
path of a node inside the deleted subtree. -/
theorem tC1 :
    (catner_del_article exSelected (some "A1")).1 = 0 ∧
    (catner_del_article exSelected (some "A1")).2.currArticle = none ∧
    (catner_del_article exSelected (some "A1")).2.currFeature = none ∧
    (catner_del_article exSelected (some "A1")).2.currVariant = none ∧
    (catner_del_article exSelected (some "A1")).2.currImage = none ∧
    (catner_del_article exSelected (some "A1")).2.currUnit = some [1, 0, 3, 1] := by
  decide

/-- C4 (code bug): `catner_del_article_image` searches for a `MIME_SOURCE`
node among the DIRECT children of `MIME_INFO`, one level above where the
path fields actually sit (inside the `MIME` nodes).  The lookup therefore
never matches: an existing image is not removed (the count stays 1) and a
non-matching path still reports success instead of the NoSuchNode
error. -/
theorem tC4 :
    (catner_del_article_image exImage (some "A1") "img.jpg").1 = 0 ∧
    (articleNodeOf (catner_del_article_image exImage (some "A1") "img.jpg").2 "A1").map numImagesOf = some 1 ∧
    (catner_del_article_image exImage (some "A1") "img.jpg").2.error = LIBCATNER_ERR_NONE ∧
    (catner_del_article_image exImage (some "A1") "nope.jpg").1 = 0 := by
  decide

/-- C9 (code bug): `catner_add_generator` never records the created node in
the handle's generator slot, so a second call also succeeds and appends a
second `GENERATOR_INFO` child under `HEADER` — the singleton property
fails and no ALREADY_EXISTS error is reported. -/
theorem tC9 :
    (catner_add_generator catner_init "genA").1 = 0 ∧
    (catner_add_generator (catner_add_generator catner_init "genA").2 "genB").1 = 0 ∧
    numGeneratorNodes (catner_add_generator (catner_add_generator catner_init "genA").2 "genB").2 = 2 := by
  decide

/-- Counterexample for C8 as stated: the empty-AID failure records
`LIBCATNER_ERR_NO_SUCH_AID`, which differs from
`LIBCATNER_ERR_INVALID_VALUE`. -/
theorem tC8cex :
    (catner_add_article catner_init "" none none).1 = -1 ∧
    (catner_add_article catner_init "" none none).2.error = LIBCATNER_ERR_NO_SUCH_AID ∧
    LIBCATNER_ERR_NO_SUCH_AID ≠ LIBCATNER_ERR_INVALID_VALUE := by
  decide

/-- Counterexample for C6 as stated: `catner_set_feature_value` on a
feature that already holds a variant recreates the scalar `FVALUE`
alongside it, so the invariant is not preserved by every public
operation. -/
theorem tC6cex :
    (catner_add_variant exFeatValue (some "A1") (some "F1") "V1" "x").1 = 0 ∧
    (catner_set_feature_value exVariant (some "A1") (some "F1") "y").1 = 0 ∧
    (featureNodeOf exVariantValue "A1" "F1").map
      (fun f => ((libcatner_find_child f "FVALUE" none).isSome, libcatner_num_variants f)) =
      some (true, 1) := by
  decide

/-- Counterexample for C7 as stated: adding feature "F1" with name "n1"
and NULL description/unit yields a feature whose `FDESCR` and `FUNIT`
lookups return nothing — not the name, not "00". -/
theorem tC7cex :
    (catner_add_feature exArticle (some "A1") "F1" (some "n1") none none none).1 = 0 ∧
    (featureNodeOf exFeature "A1" "F1").map (fun f => childContent f "FDESCR") = some none ∧
    (featureNodeOf exFeature "A1" "F1").map (fun f => childContent f "FUNIT") = some none := by
  decide
